import Mathlib

/-!
# The `inverse_kinematics` binding module of pydrake

Verification development for
`bindings/pydrake/multibody/inverse_kinematics_py.cc`.

The source file is one `PYBIND11_MODULE` body: a sequence of class
registrations (`py::class_<...>(m, "Name", ...)`), each followed by a chain
of `.def(...)` / `.def_readwrite(...)` entries, and two module-level
`m.def(...)` entries.  The embedding keeps that shape: every registration is
a record, every `.def` an entry of the record in source order, with the
lambda signature, the forwarded call, the `py::arg` list, the
`py::keep_alive` list and the return-value policy exactly as written.
-/

namespace Pydrake

/-! ## Data model of a registration -/

/-- The scalar type `T` of `MultibodyPlant<T>`, `Frame<T>`, `Context<T>`. -/
inductive Scalar
  | double
  | AutoDiffXd
deriving DecidableEq, Repr

/-- The Eigen types named in the lambda signatures. -/
inductive EigenType
  | Vector3d
  | VectorXd
  | Matrix3d
  | Matrix3Xd
  | MatrixX3d
  | MatrixXd
  | Quaterniond
deriving DecidableEq, Repr

/-- The C++ parameter types that occur in the lambda signatures and in the
`py::init<...>` template lists (top-level `const` of a pointer is dropped). -/
inductive CppType
  /-- The type `const MultibodyPlant<T>&`. -/
  | MultibodyPlantRef (T : Scalar)
  /-- The type `const MultibodyPlant<T>*`. -/
  | MultibodyPlantPtr (T : Scalar)
  /-- The type `systems::Context<T>*`. -/
  | ContextPtr (T : Scalar)
  /-- The type `const Frame<T>&`. -/
  | FrameRef (T : Scalar)
  /-- The type `const math::RotationMatrix<T>&`. -/
  | RotationMatrixRef (T : Scalar)
  /-- The type `const Eigen::Ref<const Eigen::M>&`. -/
  | EigenRef (M : EigenType)
  /-- The type `const Eigen::M&`. -/
  | EigenConstRef (M : EigenType)
  /-- The type `const math::RigidTransformd&`. -/
  | RigidTransformdRef
  /-- The type `const std::optional<math::RigidTransformd>&`. -/
  | OptionalRigidTransformdRef
  /-- The type `const std::optional<std::vector<ModelInstanceIndex>>&`. -/
  | OptionalModelInstancesRef
  /-- The type `std::optional<std::vector<ModelInstanceIndex>>` (by value). -/
  | OptionalModelInstances
  /-- The type `SortedPair<geometry::GeometryId>`. -/
  | SortedPairGeometryId
  /-- The type `MinimumDistancePenaltyFunction`. -/
  | MinimumDistancePenaltyFunction
  /-- The type `const GlobalInverseKinematics::Options&`. -/
  | OptionsRef
  /-- The type `BodyIndex`. -/
  | BodyIndex
  /-- The type `double`. -/
  | double
  /-- The type `bool`. -/
  | bool
deriving DecidableEq, Repr

/-- One parameter of a lambda: its type and its name. -/
structure Param where
  type : CppType
  name : String
deriving DecidableEq, Repr

/-- The default-value expressions written after `py::arg("...") =`. -/
inductive DefaultExpr
  /-- The expression `true`. -/
  | true_
  /-- The expression `1.0`. -/
  | float_1_0
  /-- The expression `1`. -/
  | int_1
  /-- The expression `MinimumDistancePenaltyFunction` with empty braces. -/
  | MinimumDistancePenaltyFunction_empty
  /-- The expression `GlobalInverseKinematics::Options()`. -/
  | Options_default
  /-- The expression `math::RigidTransformd()`. -/
  | RigidTransformd_default
deriving DecidableEq, Repr

/-- One `py::arg("name")` or `py::arg("name") = default`. -/
structure PyArg where
  name : String
  default : Option DefaultExpr
deriving DecidableEq, Repr

/-- Shorthand for `py::arg(n)` without a default. -/
def arg (n : String) : PyArg := ⟨n, none⟩

/-- Shorthand for `py::arg(n) = e`. -/
def arg_eq (n : String) (e : DefaultExpr) : PyArg := ⟨n, some e⟩

/-- One `py::keep_alive<Nurse, Patient>()`. Index 1 is `self`, index 2 the
first argument after `self`. -/
structure KeepAlive where
  nurse : Nat
  patient : Nat
deriving DecidableEq, Repr

/-- The return-value policies written in the file. -/
inductive Rvp
  | reference_internal
deriving DecidableEq, Repr

/-- The factory called inside a constructor lambda. -/
inductive Maker
  | make_unique
  | make_shared
deriving DecidableEq, Repr

/-- What a `.def` binds. Lambda parameter lists leave out the leading
`Class* self` of method lambdas. -/
inductive Impl
  /-- The form `py::init<Types...>()`. -/
  | init (types : List CppType)
  /-- The form `py::init([](params) { return std::maker<Class>(args); })`. -/
  | init_lambda (params : List Param) (maker : Maker) (args : List String)
  /-- The form `[](Class* self, params) { return self->callee(args); }`. -/
  | lambda (params : List Param) (callee : String) (args : List String)
  /-- The form `&Class::member`. -/
  | member (member : String)
  /-- The form `&function<T>`. -/
  | function (function : String) (T : Scalar)
  /-- The `__repr__` lambda: `py::str(format).format(self.fields...)`. -/
  | repr_format (format : String) (fields : List String)
deriving DecidableEq, Repr

/-- One `.def(...)` entry. A constructor has the Python name `__init__`. -/
structure Def where
  name : String
  impl : Impl
  args : List PyArg
  keep_alive : List KeepAlive
  rvp : Option Rvp
  doc : String
deriving DecidableEq, Repr

/-- One `.def_readwrite("name", &Class::member, doc)`. -/
structure DefReadwrite where
  name : String
  member : String
  doc : String
deriving DecidableEq, Repr

/-- The base class named in `py::class_<Class, Base, Ptr>`. -/
inductive Base
  /-- The base `solvers::Constraint`. -/
  | Constraint
  /-- The base `solvers::Cost`. -/
  | Cost
deriving DecidableEq, Repr

/-- One `py::class_<...>(scope, "name", doc)` with its chain of entries.
`holder_shared_ptr` records `using Ptr = std::shared_ptr<Class>`. -/
structure PyClass where
  scope : String
  name : String
  base : Option Base
  holder_shared_ptr : Bool
  defs : List Def
  readwrite : List DefReadwrite
deriving DecidableEq, Repr

/-- The module: its registrations in source order and its `m.def` entries. -/
structure PyModule where
  name : String
  doc : String
  imports : List String
  classes : List PyClass
  functions : List Def
deriving DecidableEq, Repr

/-- A constructor entry: `py::init<...>()` or `py::init(lambda)`. -/
def Impl.isInit : Impl → Bool
  | .init _ => true
  | .init_lambda _ _ _ => true
  | _ => false

/-- Whether the entry is a constructor. -/
def Def.isCtor (d : Def) : Bool := d.impl.isInit

/-- The `py::arg` names of an entry, in order. -/
def Def.argNames (d : Def) : List String := d.args.map (·.name)

/-- The constructors of a class, in source order. -/
def PyClass.ctors (c : PyClass) : List Def := c.defs.filter Def.isCtor

/-- The non-constructor entries of a class, in source order. -/
def PyClass.methods (c : PyClass) : List Def := c.defs.filter (fun d => !d.isCtor)

/-- The C++ parameter types of an entry, where the file writes them
(template list of `py::init<...>` or lambda signature). -/
def Impl.paramTypes : Impl → List CppType
  | .init ts => ts
  | .init_lambda ps _ _ => ps.map (·.type)
  | .lambda ps _ _ => ps.map (·.type)
  | _ => []

/-- The lambda parameter names of an entry (empty when it binds no lambda). -/
def Impl.paramNames : Impl → List String
  | .init_lambda ps _ _ => ps.map (·.name)
  | .lambda ps _ _ => ps.map (·.name)
  | _ => []

/-! ## The registrations, in source order -/

open CppType EigenType Scalar in
/-- The `InverseKinematics` block (source lines 42-129). -/
def InverseKinematics_class : PyClass where
  scope := "m"
  name := "InverseKinematics"
  base := none
  holder_shared_ptr := false
  readwrite := []
  defs := [
    { name := "__init__",
      impl := .init [MultibodyPlantRef double, CppType.bool],
      args := [arg "plant", arg_eq "with_joint_limits" .true_],
      keep_alive := [⟨1, 2⟩], rvp := none, doc := "cls_doc.ctor.doc_2args" },
    { name := "__init__",
      impl := .init [MultibodyPlantRef double, ContextPtr double, CppType.bool],
      args := [arg "plant", arg "plant_context", arg_eq "with_joint_limits" .true_],
      keep_alive := [⟨1, 2⟩, ⟨1, 3⟩], rvp := none, doc := "cls_doc.ctor.doc_3args" },
    { name := "AddPositionConstraint",
      impl := .lambda
        [⟨FrameRef double, "frameB"⟩, ⟨EigenRef Vector3d, "p_BQ"⟩,
         ⟨FrameRef double, "frameA"⟩, ⟨EigenRef Vector3d, "p_AQ_lower"⟩,
         ⟨EigenRef Vector3d, "p_AQ_upper"⟩]
        "AddPositionConstraint"
        ["frameB", "p_BQ", "frameA", "p_AQ_lower", "p_AQ_upper"],
      args := [arg "frameB", arg "p_BQ", arg "frameA", arg "p_AQ_lower", arg "p_AQ_upper"],
      keep_alive := [], rvp := none, doc := "cls_doc.AddPositionConstraint.doc_5args" },
    { name := "AddPositionConstraint",
      impl := .lambda
        [⟨FrameRef double, "frameB"⟩, ⟨EigenRef Vector3d, "p_BQ"⟩,
         ⟨FrameRef double, "frameAbar"⟩, ⟨OptionalRigidTransformdRef, "X_AbarA"⟩,
         ⟨EigenRef Vector3d, "p_AQ_lower"⟩, ⟨EigenRef Vector3d, "p_AQ_upper"⟩]
        "AddPositionConstraint"
        ["frameB", "p_BQ", "frameAbar", "X_AbarA", "p_AQ_lower", "p_AQ_upper"],
      args := [arg "frameB", arg "p_BQ", arg "frameAbar", arg "X_AbarA",
               arg "p_AQ_lower", arg "p_AQ_upper"],
      keep_alive := [], rvp := none, doc := "cls_doc.AddPositionConstraint.doc_6args" },
    { name := "AddPositionCost", impl := .member "AddPositionCost",
      args := [arg "frameA", arg "p_AP", arg "frameB", arg "p_BQ", arg "C"],
      keep_alive := [], rvp := none, doc := "cls_doc.AddPositionCost.doc" },
    { name := "AddOrientationConstraint", impl := .member "AddOrientationConstraint",
      args := [arg "frameAbar", arg "R_AbarA", arg "frameBbar", arg "R_BbarB",
               arg "theta_bound"],
      keep_alive := [], rvp := none, doc := "cls_doc.AddOrientationConstraint.doc" },
    { name := "AddOrientationCost", impl := .member "AddOrientationCost",
      args := [arg "frameAbar", arg "R_AbarA", arg "frameBbar", arg "R_BbarB", arg "c"],
      keep_alive := [], rvp := none, doc := "cls_doc.AddOrientationCost.doc" },
    { name := "AddGazeTargetConstraint", impl := .member "AddGazeTargetConstraint",
      args := [arg "frameA", arg "p_AS", arg "n_A", arg "frameB", arg "p_BT",
               arg "cone_half_angle"],
      keep_alive := [], rvp := none, doc := "cls_doc.AddGazeTargetConstraint.doc" },
    { name := "AddAngleBetweenVectorsConstraint",
      impl := .member "AddAngleBetweenVectorsConstraint",
      args := [arg "frameA", arg "na_A", arg "frameB", arg "nb_B", arg "angle_lower",
               arg "angle_upper"],
      keep_alive := [], rvp := none,
      doc := "cls_doc.AddAngleBetweenVectorsConstraint.doc" },
    { name := "AddMinimumDistanceConstraint",
      impl := .member "AddMinimumDistanceConstraint",
      args := [arg "minimum_distance", arg_eq "threshold_distance" .float_1_0],
      keep_alive := [], rvp := none, doc := "cls_doc.AddMinimumDistanceConstraint.doc" },
    { name := "AddDistanceConstraint", impl := .member "AddDistanceConstraint",
      args := [arg "geometry_pair", arg "distance_lower", arg "distance_upper"],
      keep_alive := [], rvp := none, doc := "cls_doc.AddDistanceConstraint.doc" },
    { name := "AddPointToPointDistanceConstraint",
      impl := .member "AddPointToPointDistanceConstraint",
      args := [arg "frame1", arg "p_B1P1", arg "frame2", arg "p_B2P2",
               arg "distance_lower", arg "distance_upper"],
      keep_alive := [], rvp := none,
      doc := "cls_doc.AddPointToPointDistanceConstraint.doc" },
    { name := "AddPolyhedronConstraint", impl := .member "AddPolyhedronConstraint",
      args := [arg "frameF", arg "frameG", arg "p_GP", arg "A", arg "b"],
      keep_alive := [], rvp := none, doc := "cls_doc.AddPolyhedronConstraint.doc" },
    { name := "q", impl := .member "q", args := [],
      keep_alive := [], rvp := none, doc := "cls_doc.q.doc" },
    { name := "prog", impl := .member "prog", args := [],
      keep_alive := [], rvp := some .reference_internal, doc := "cls_doc.prog.doc" },
    { name := "get_mutable_prog", impl := .member "get_mutable_prog", args := [],
      keep_alive := [], rvp := some .reference_internal,
      doc := "cls_doc.get_mutable_prog.doc" },
    { name := "context", impl := .member "context", args := [],
      keep_alive := [], rvp := some .reference_internal, doc := "cls_doc.context.doc" },
    { name := "get_mutable_context", impl := .member "get_mutable_context", args := [],
      keep_alive := [], rvp := some .reference_internal,
      doc := "cls_doc.get_mutable_context.doc" } ]

open CppType EigenType Scalar in
/-- The `AngleBetweenVectorsConstraint` block (source lines 130-170). -/
def AngleBetweenVectorsConstraint_class : PyClass where
  scope := "m"
  name := "AngleBetweenVectorsConstraint"
  base := some .Constraint
  holder_shared_ptr := true
  readwrite := []
  defs := [
    { name := "__init__",
      impl := .init_lambda
        [⟨MultibodyPlantPtr double, "plant"⟩, ⟨FrameRef double, "frameA"⟩,
         ⟨EigenRef Vector3d, "a_A"⟩, ⟨FrameRef double, "frameB"⟩,
         ⟨EigenRef Vector3d, "b_B"⟩, ⟨CppType.double, "angle_lower"⟩,
         ⟨CppType.double, "angle_upper"⟩, ⟨ContextPtr double, "plant_context"⟩]
        .make_unique
        ["plant", "frameA", "a_A", "frameB", "b_B", "angle_lower", "angle_upper",
         "plant_context"],
      args := [arg "plant", arg "frameA", arg "a_A", arg "frameB", arg "b_B",
               arg "angle_lower", arg "angle_upper", arg "plant_context"],
      keep_alive := [⟨1, 2⟩, ⟨1, 9⟩], rvp := none, doc := "cls_doc.ctor.doc_double" },
    { name := "__init__",
      impl := .init_lambda
        [⟨MultibodyPlantPtr AutoDiffXd, "plant"⟩, ⟨FrameRef AutoDiffXd, "frameA"⟩,
         ⟨EigenRef Vector3d, "a_A"⟩, ⟨FrameRef AutoDiffXd, "frameB"⟩,
         ⟨EigenRef Vector3d, "b_B"⟩, ⟨CppType.double, "angle_lower"⟩,
         ⟨CppType.double, "angle_upper"⟩, ⟨ContextPtr AutoDiffXd, "plant_context"⟩]
        .make_unique
        ["plant", "frameA", "a_A", "frameB", "b_B", "angle_lower", "angle_upper",
         "plant_context"],
      args := [arg "plant", arg "frameA", arg "a_A", arg "frameB", arg "b_B",
               arg "angle_lower", arg "angle_upper", arg "plant_context"],
      keep_alive := [⟨1, 2⟩, ⟨1, 9⟩], rvp := none, doc := "cls_doc.ctor.doc_autodiff" } ]

open CppType EigenType Scalar in
/-- The `PointToPointDistanceConstraint` block (source lines 171-212). -/
def PointToPointDistanceConstraint_class : PyClass where
  scope := "m"
  name := "PointToPointDistanceConstraint"
  base := some .Constraint
  holder_shared_ptr := true
  readwrite := []
  defs := [
    { name := "__init__",
      impl := .init_lambda
        [⟨MultibodyPlantPtr double, "plant"⟩, ⟨FrameRef double, "frame1"⟩,
         ⟨EigenRef Vector3d, "p_B1P1"⟩, ⟨FrameRef double, "frame2"⟩,
         ⟨EigenRef Vector3d, "p_B2P2"⟩, ⟨CppType.double, "distance_lower"⟩,
         ⟨CppType.double, "distance_upper"⟩, ⟨ContextPtr double, "plant_context"⟩]
        .make_shared
        ["plant", "frame1", "p_B1P1", "frame2", "p_B2P2", "distance_lower",
         "distance_upper", "plant_context"],
      args := [arg "plant", arg "frame1", arg "p_B1P1", arg "frame2", arg "p_B2P2",
               arg "distance_lower", arg "distance_upper", arg "plant_context"],
      keep_alive := [⟨1, 2⟩, ⟨1, 9⟩], rvp := none, doc := "cls_doc.ctor.doc_double" },
    { name := "__init__",
      impl := .init_lambda
        [⟨MultibodyPlantPtr AutoDiffXd, "plant"⟩, ⟨FrameRef AutoDiffXd, "frame1"⟩,
         ⟨EigenRef Vector3d, "p_B1P1"⟩, ⟨FrameRef AutoDiffXd, "frame2"⟩,
         ⟨EigenRef Vector3d, "p_B2P2"⟩, ⟨CppType.double, "distance_lower"⟩,
         ⟨CppType.double, "distance_upper"⟩, ⟨ContextPtr AutoDiffXd, "plant_context"⟩]
        .make_shared
        ["plant", "frame1", "p_B1P1", "frame2", "p_B2P2", "distance_lower",
         "distance_upper", "plant_context"],
      args := [arg "plant", arg "frame1", arg "p_B1P1", arg "frame2", arg "p_B2P2",
               arg "distance_lower", arg "distance_upper", arg "plant_context"],
      keep_alive := [⟨1, 2⟩, ⟨1, 9⟩], rvp := none, doc := "cls_doc.ctor.doc_autodiff" } ]

open CppType EigenType Scalar in
/-- The `PolyhedronConstraint` block (source lines 213-253). -/
def PolyhedronConstraint_class : PyClass where
  scope := "m"
  name := "PolyhedronConstraint"
  base := some .Constraint
  holder_shared_ptr := true
  readwrite := []
  defs := [
    { name := "__init__",
      impl := .init_lambda
        [⟨MultibodyPlantPtr double, "plant"⟩, ⟨FrameRef double, "frameF"⟩,
         ⟨FrameRef double, "frameG"⟩, ⟨EigenRef Matrix3Xd, "p_GP"⟩,
         ⟨EigenRef MatrixXd, "A"⟩, ⟨EigenRef VectorXd, "b"⟩,
         ⟨ContextPtr double, "plant_context"⟩]
        .make_shared
        ["plant", "frameF", "frameG", "p_GP", "A", "b", "plant_context"],
      args := [arg "plant", arg "frameF", arg "frameG", arg "p_GP", arg "A", arg "b",
               arg "plant_context"],
      keep_alive := [⟨1, 2⟩, ⟨1, 8⟩], rvp := none, doc := "cls_doc.ctor.doc_double" },
    { name := "__init__",
      impl := .init_lambda
        [⟨MultibodyPlantPtr AutoDiffXd, "plant"⟩, ⟨FrameRef AutoDiffXd, "frameF"⟩,
         ⟨FrameRef AutoDiffXd, "frameG"⟩, ⟨EigenRef Matrix3Xd, "p_GP"⟩,
         ⟨EigenRef MatrixXd, "A"⟩, ⟨EigenRef VectorXd, "b"⟩,
         ⟨ContextPtr AutoDiffXd, "plant_context"⟩]
        .make_shared
        ["plant", "frameF", "frameG", "p_GP", "A", "b", "plant_context"],
      args := [arg "plant", arg "frameF", arg "frameG", arg "p_GP", arg "A", arg "b",
               arg "plant_context"],
      keep_alive := [⟨1, 2⟩, ⟨1, 8⟩], rvp := none, doc := "cls_doc.ctor.doc_autodiff" } ]

open CppType EigenType Scalar in
/-- The `DistanceConstraint` block (source lines 254-288). -/
def DistanceConstraint_class : PyClass where
  scope := "m"
  name := "DistanceConstraint"
  base := some .Constraint
  holder_shared_ptr := true
  readwrite := []
  defs := [
    { name := "__init__",
      impl := .init_lambda
        [⟨MultibodyPlantPtr double, "plant"⟩, ⟨SortedPairGeometryId, "geometry_pair"⟩,
         ⟨ContextPtr double, "plant_context"⟩, ⟨CppType.double, "distance_lower"⟩,
         ⟨CppType.double, "distance_upper"⟩]
        .make_unique
        ["plant", "geometry_pair", "plant_context", "distance_lower", "distance_upper"],
      args := [arg "plant", arg "geometry_pair", arg "plant_context",
               arg "distance_lower", arg "distance_upper"],
      keep_alive := [⟨1, 2⟩, ⟨1, 4⟩], rvp := none, doc := "cls_doc.ctor.doc_double" },
    { name := "__init__",
      impl := .init_lambda
        [⟨MultibodyPlantPtr AutoDiffXd, "plant"⟩,
         ⟨SortedPairGeometryId, "geometry_pair"⟩,
         ⟨ContextPtr AutoDiffXd, "plant_context"⟩, ⟨CppType.double, "distance_lower"⟩,
         ⟨CppType.double, "distance_upper"⟩]
        .make_unique
        ["plant", "geometry_pair", "plant_context", "distance_lower", "distance_upper"],
      args := [arg "plant", arg "geometry_pair", arg "plant_context",
               arg "distance_lower", arg "distance_upper"],
      keep_alive := [⟨1, 2⟩, ⟨1, 4⟩], rvp := none, doc := "cls_doc.ctor.doc_autodiff" } ]

open CppType EigenType Scalar in
/-- The `GazeTargetConstraint` block (source lines 290-331). -/
def GazeTargetConstraint_class : PyClass where
  scope := "m"
  name := "GazeTargetConstraint"
  base := some .Constraint
  holder_shared_ptr := true
  readwrite := []
  defs := [
    { name := "__init__",
      impl := .init_lambda
        [⟨MultibodyPlantPtr double, "plant"⟩, ⟨FrameRef double, "frameA"⟩,
         ⟨EigenRef Vector3d, "p_AS"⟩, ⟨EigenRef Vector3d, "n_A"⟩,
         ⟨FrameRef double, "frameB"⟩, ⟨EigenRef Vector3d, "p_BT"⟩,
         ⟨CppType.double, "cone_half_angle"⟩, ⟨ContextPtr double, "plant_context"⟩]
        .make_unique
        ["plant", "frameA", "p_AS", "n_A", "frameB", "p_BT", "cone_half_angle",
         "plant_context"],
      args := [arg "plant", arg "frameA", arg "p_AS", arg "n_A", arg "frameB",
               arg "p_BT", arg "cone_half_angle", arg "plant_context"],
      keep_alive := [⟨1, 2⟩, ⟨1, 9⟩], rvp := none, doc := "cls_doc.ctor.doc_double" },
    { name := "__init__",
      impl := .init_lambda
        [⟨MultibodyPlantPtr AutoDiffXd, "plant"⟩, ⟨FrameRef AutoDiffXd, "frameA"⟩,
         ⟨EigenRef Vector3d, "p_AS"⟩, ⟨EigenRef Vector3d, "n_A"⟩,
         ⟨FrameRef AutoDiffXd, "frameB"⟩, ⟨EigenRef Vector3d, "p_BT"⟩,
         ⟨CppType.double, "cone_half_angle"⟩, ⟨ContextPtr AutoDiffXd, "plant_context"⟩]
        .make_unique
        ["plant", "frameA", "p_AS", "n_A", "frameB", "p_BT", "cone_half_angle",
         "plant_context"],
      args := [arg "plant", arg "frameA", arg "p_AS", arg "n_A", arg "frameB",
               arg "p_BT", arg "cone_half_angle", arg "plant_context"],
      keep_alive := [⟨1, 2⟩, ⟨1, 9⟩], rvp := none, doc := "cls_doc.ctor.doc_autodiff" } ]

open CppType EigenType Scalar in
/-- The `MinimumDistanceConstraint` block (source lines 333-373). -/
def MinimumDistanceConstraint_class : PyClass where
  scope := "m"
  name := "MinimumDistanceConstraint"
  base := some .Constraint
  holder_shared_ptr := true
  readwrite := []
  defs := [
    { name := "__init__",
      impl := .init_lambda
        [⟨MultibodyPlantPtr double, "plant"⟩, ⟨CppType.double, "minimum_distance"⟩,
         ⟨ContextPtr double, "plant_context"⟩,
         ⟨CppType.MinimumDistancePenaltyFunction, "penalty_function"⟩,
         ⟨CppType.double, "influence_distance_offset"⟩]
        .make_unique
        ["plant", "minimum_distance", "plant_context", "penalty_function",
         "influence_distance_offset"],
      args := [arg "plant", arg "minimum_distance", arg "plant_context",
               arg_eq "penalty_function" .MinimumDistancePenaltyFunction_empty,
               arg_eq "influence_distance_offset" .int_1],
      keep_alive := [⟨1, 2⟩, ⟨1, 4⟩], rvp := none, doc := "cls_doc.ctor.doc_double" },
    { name := "__init__",
      impl := .init_lambda
        [⟨MultibodyPlantPtr AutoDiffXd, "plant"⟩, ⟨CppType.double, "minimum_distance"⟩,
         ⟨ContextPtr AutoDiffXd, "plant_context"⟩,
         ⟨CppType.MinimumDistancePenaltyFunction, "penalty_function"⟩,
         ⟨CppType.double, "influence_distance_offset"⟩]
        .make_unique
        ["plant", "minimum_distance", "plant_context", "penalty_function",
         "influence_distance_offset"],
      args := [arg "plant", arg "minimum_distance", arg "plant_context",
               arg_eq "penalty_function" .MinimumDistancePenaltyFunction_empty,
               arg_eq "influence_distance_offset" .int_1],
      keep_alive := [⟨1, 2⟩, ⟨1, 4⟩], rvp := none, doc := "cls_doc.ctor.doc_autodiff" } ]

open CppType EigenType Scalar in
/-- The `PositionConstraint` block (source lines 375-456). -/
def PositionConstraint_class : PyClass where
  scope := "m"
  name := "PositionConstraint"
  base := some .Constraint
  holder_shared_ptr := true
  readwrite := []
  defs := [
    { name := "__init__",
      impl := .init_lambda
        [⟨MultibodyPlantPtr double, "plant"⟩, ⟨FrameRef double, "frameA"⟩,
         ⟨EigenRef Vector3d, "p_AQ_lower"⟩, ⟨EigenRef Vector3d, "p_AQ_upper"⟩,
         ⟨FrameRef double, "frameB"⟩, ⟨EigenRef Vector3d, "p_BQ"⟩,
         ⟨ContextPtr double, "plant_context"⟩]
        .make_unique
        ["plant", "frameA", "p_AQ_lower", "p_AQ_upper", "frameB", "p_BQ",
         "plant_context"],
      args := [arg "plant", arg "frameA", arg "p_AQ_lower", arg "p_AQ_upper",
               arg "frameB", arg "p_BQ", arg "plant_context"],
      keep_alive := [⟨1, 2⟩, ⟨1, 8⟩], rvp := none, doc := "cls_doc.ctor.doc_double" },
    { name := "__init__",
      impl := .init_lambda
        [⟨MultibodyPlantPtr double, "plant"⟩, ⟨FrameRef double, "frameAbar"⟩,
         ⟨OptionalRigidTransformdRef, "X_AbarA"⟩, ⟨EigenRef Vector3d, "p_AQ_lower"⟩,
         ⟨EigenRef Vector3d, "p_AQ_upper"⟩, ⟨FrameRef double, "frameB"⟩,
         ⟨EigenRef Vector3d, "p_BQ"⟩, ⟨ContextPtr double, "plant_context"⟩]
        .make_unique
        ["plant", "frameAbar", "X_AbarA", "p_AQ_lower", "p_AQ_upper", "frameB", "p_BQ",
         "plant_context"],
      args := [arg "plant", arg "frameAbar", arg "X_AbarA", arg "p_AQ_lower",
               arg "p_AQ_upper", arg "frameB", arg "p_BQ", arg "plant_context"],
      keep_alive := [⟨1, 2⟩, ⟨1, 9⟩], rvp := none,
      doc := "cls_doc.ctor.doc_double_Abar" },
    { name := "__init__",
      impl := .init_lambda
        [⟨MultibodyPlantPtr AutoDiffXd, "plant"⟩, ⟨FrameRef AutoDiffXd, "frameA"⟩,
         ⟨EigenRef Vector3d, "p_AQ_lower"⟩, ⟨EigenRef Vector3d, "p_AQ_upper"⟩,
         ⟨FrameRef AutoDiffXd, "frameB"⟩, ⟨EigenRef Vector3d, "p_BQ"⟩,
         ⟨ContextPtr AutoDiffXd, "plant_context"⟩]
        .make_unique
        ["plant", "frameA", "p_AQ_lower", "p_AQ_upper", "frameB", "p_BQ",
         "plant_context"],
      args := [arg "plant", arg "frameA", arg "p_AQ_lower", arg "p_AQ_upper",
               arg "frameB", arg "p_BQ", arg "plant_context"],
      keep_alive := [⟨1, 2⟩, ⟨1, 8⟩], rvp := none, doc := "cls_doc.ctor.doc_autodiff" },
    { name := "__init__",
      impl := .init_lambda
        [⟨MultibodyPlantPtr AutoDiffXd, "plant"⟩, ⟨FrameRef AutoDiffXd, "frameAbar"⟩,
         ⟨OptionalRigidTransformdRef, "X_AbarA"⟩, ⟨EigenRef Vector3d, "p_AQ_lower"⟩,
         ⟨EigenRef Vector3d, "p_AQ_upper"⟩, ⟨FrameRef AutoDiffXd, "frameB"⟩,
         ⟨EigenRef Vector3d, "p_BQ"⟩, ⟨ContextPtr AutoDiffXd, "plant_context"⟩]
        .make_unique
        ["plant", "frameAbar", "X_AbarA", "p_AQ_lower", "p_AQ_upper", "frameB", "p_BQ",
         "plant_context"],
      args := [arg "plant", arg "frameAbar", arg "X_AbarA", arg "p_AQ_lower",
               arg "p_AQ_upper", arg "frameB", arg "p_BQ", arg "plant_context"],
      keep_alive := [⟨1, 2⟩, ⟨1, 9⟩], rvp := none,
      doc := "cls_doc.ctor.doc_autodiff_Abar" },
    { name := "set_bounds", impl := .member "set_bounds",
      args := [arg "new_lb", arg "new_ub"],
      keep_alive := [], rvp := none, doc := "constraint_doc.set_bounds.doc" },
    { name := "UpdateLowerBound", impl := .member "UpdateLowerBound",
      args := [arg "new_lb"],
      keep_alive := [], rvp := none, doc := "constraint_doc.UpdateLowerBound.doc" },
    { name := "UpdateUpperBound", impl := .member "UpdateUpperBound",
      args := [arg "new_ub"],
      keep_alive := [], rvp := none, doc := "constraint_doc.UpdateUpperBound.doc" } ]

open CppType EigenType Scalar in
/-- The `PositionCost` block (source lines 458-497). -/
def PositionCost_class : PyClass where
  scope := "m"
  name := "PositionCost"
  base := some .Cost
  holder_shared_ptr := true
  readwrite := []
  defs := [
    { name := "__init__",
      impl := .init_lambda
        [⟨MultibodyPlantPtr double, "plant"⟩, ⟨FrameRef double, "frameA"⟩,
         ⟨EigenRef Vector3d, "p_AP"⟩, ⟨FrameRef double, "frameB"⟩,
         ⟨EigenRef Vector3d, "p_BQ"⟩, ⟨EigenRef Matrix3d, "C"⟩,
         ⟨ContextPtr double, "plant_context"⟩]
        .make_unique
        ["plant", "frameA", "p_AP", "frameB", "p_BQ", "C", "plant_context"],
      args := [arg "plant", arg "frameA", arg "p_AP", arg "frameB", arg "p_BQ",
               arg "C", arg "plant_context"],
      keep_alive := [⟨1, 2⟩, ⟨1, 8⟩], rvp := none, doc := "cls_doc.ctor.doc_double" },
    { name := "__init__",
      impl := .init_lambda
        [⟨MultibodyPlantPtr AutoDiffXd, "plant"⟩, ⟨FrameRef AutoDiffXd, "frameA"⟩,
         ⟨EigenRef Vector3d, "p_AP"⟩, ⟨FrameRef AutoDiffXd, "frameB"⟩,
         ⟨EigenRef Vector3d, "p_BQ"⟩, ⟨EigenRef Matrix3d, "C"⟩,
         ⟨ContextPtr AutoDiffXd, "plant_context"⟩]
        .make_unique
        ["plant", "frameA", "p_AP", "frameB", "p_BQ", "C", "plant_context"],
      args := [arg "plant", arg "frameA", arg "p_AP", arg "frameB", arg "p_BQ",
               arg "C", arg "plant_context"],
      keep_alive := [⟨1, 2⟩, ⟨1, 8⟩], rvp := none, doc := "cls_doc.ctor.doc_autodiff" } ]

open CppType EigenType Scalar in
/-- The `ComPositionConstraint` block (source lines 499-532). -/
def ComPositionConstraint_class : PyClass where
  scope := "m"
  name := "ComPositionConstraint"
  base := some .Constraint
  holder_shared_ptr := true
  readwrite := []
  defs := [
    { name := "__init__",
      impl := .init_lambda
        [⟨MultibodyPlantPtr double, "plant"⟩,
         ⟨OptionalModelInstancesRef, "model_instances"⟩,
         ⟨FrameRef double, "expressed_frame"⟩, ⟨ContextPtr double, "plant_context"⟩]
        .make_unique
        ["plant", "model_instances", "expressed_frame", "plant_context"],
      args := [arg "plant", arg "model_instances", arg "expressed_frame",
               arg "plant_context"],
      keep_alive := [⟨1, 2⟩, ⟨1, 5⟩], rvp := none, doc := "cls_doc.ctor.doc_double" },
    { name := "__init__",
      impl := .init_lambda
        [⟨MultibodyPlantPtr AutoDiffXd, "plant"⟩,
         ⟨OptionalModelInstancesRef, "model_instances"⟩,
         ⟨FrameRef AutoDiffXd, "expressed_frame"⟩,
         ⟨ContextPtr AutoDiffXd, "plant_context"⟩]
        .make_unique
        ["plant", "model_instances", "expressed_frame", "plant_context"],
      args := [arg "plant", arg "model_instances", arg "expressed_frame",
               arg "plant_context"],
      keep_alive := [⟨1, 2⟩, ⟨1, 5⟩], rvp := none, doc := "cls_doc.ctor.doc_autodiff" } ]

open CppType EigenType Scalar in
/-- The `ComInPolyhedronConstraint` block (source lines 534-576). -/
def ComInPolyhedronConstraint_class : PyClass where
  scope := "m"
  name := "ComInPolyhedronConstraint"
  base := some .Constraint
  holder_shared_ptr := true
  readwrite := []
  defs := [
    { name := "__init__",
      impl := .init_lambda
        [⟨MultibodyPlantPtr double, "plant"⟩,
         ⟨OptionalModelInstances, "model_instances"⟩,
         ⟨FrameRef double, "expressed_frame"⟩, ⟨EigenRef MatrixX3d, "A"⟩,
         ⟨EigenRef VectorXd, "lb"⟩, ⟨EigenRef VectorXd, "ub"⟩,
         ⟨ContextPtr double, "plant_context"⟩]
        .make_unique
        ["plant", "model_instances", "expressed_frame", "A", "lb", "ub",
         "plant_context"],
      args := [arg "plant", arg "model_instances", arg "expressed_frame", arg "A",
               arg "lb", arg "ub", arg "plant_context"],
      keep_alive := [⟨1, 2⟩, ⟨1, 8⟩], rvp := none, doc := "cls_doc.ctor.doc_double" },
    { name := "__init__",
      impl := .init_lambda
        [⟨MultibodyPlantPtr AutoDiffXd, "plant"⟩,
         ⟨OptionalModelInstances, "model_instances"⟩,
         ⟨FrameRef AutoDiffXd, "expressed_frame"⟩, ⟨EigenRef MatrixX3d, "A"⟩,
         ⟨EigenRef VectorXd, "lb"⟩, ⟨EigenRef VectorXd, "ub"⟩,
         ⟨ContextPtr AutoDiffXd, "plant_context"⟩]
        .make_unique
        ["plant", "model_instances", "expressed_frame", "A", "lb", "ub",
         "plant_context"],
      args := [arg "plant", arg "model_instances", arg "expressed_frame", arg "A",
               arg "lb", arg "ub", arg "plant_context"],
      keep_alive := [⟨1, 2⟩, ⟨1, 8⟩], rvp := none, doc := "cls_doc.ctor.doc_autodiff" } ]

open CppType EigenType Scalar in
/-- The `OrientationConstraint` block (source lines 578-617). -/
def OrientationConstraint_class : PyClass where
  scope := "m"
  name := "OrientationConstraint"
  base := some .Constraint
  holder_shared_ptr := true
  readwrite := []
  defs := [
    { name := "__init__",
      impl := .init_lambda
        [⟨MultibodyPlantPtr double, "plant"⟩, ⟨FrameRef double, "frameAbar"⟩,
         ⟨RotationMatrixRef double, "R_AbarA"⟩, ⟨FrameRef double, "frameBbar"⟩,
         ⟨RotationMatrixRef double, "R_BbarB"⟩, ⟨CppType.double, "theta_bound"⟩,
         ⟨ContextPtr double, "plant_context"⟩]
        .make_unique
        ["plant", "frameAbar", "R_AbarA", "frameBbar", "R_BbarB", "theta_bound",
         "plant_context"],
      args := [arg "plant", arg "frameAbar", arg "R_AbarA", arg "frameBbar",
               arg "R_BbarB", arg "theta_bound", arg "plant_context"],
      keep_alive := [⟨1, 2⟩, ⟨1, 8⟩], rvp := none, doc := "cls_doc.ctor.doc_double" },
    { name := "__init__",
      impl := .init_lambda
        [⟨MultibodyPlantPtr AutoDiffXd, "plant"⟩, ⟨FrameRef AutoDiffXd, "frameAbar"⟩,
         ⟨RotationMatrixRef double, "R_AbarA"⟩, ⟨FrameRef AutoDiffXd, "frameBbar"⟩,
         ⟨RotationMatrixRef double, "R_BbarB"⟩, ⟨CppType.double, "theta_bound"⟩,
         ⟨ContextPtr AutoDiffXd, "plant_context"⟩]
        .make_unique
        ["plant", "frameAbar", "R_AbarA", "frameBbar", "R_BbarB", "theta_bound",
         "plant_context"],
      args := [arg "plant", arg "frameAbar", arg "R_AbarA", arg "frameBbar",
               arg "R_BbarB", arg "theta_bound", arg "plant_context"],
      keep_alive := [⟨1, 2⟩, ⟨1, 8⟩], rvp := none, doc := "cls_doc.ctor.doc_autodiff" } ]

open CppType EigenType Scalar in
/-- The `OrientationCost` block (source lines 619-656). -/
def OrientationCost_class : PyClass where
  scope := "m"
  name := "OrientationCost"
  base := some .Cost
  holder_shared_ptr := true
  readwrite := []
  defs := [
    { name := "__init__",
      impl := .init_lambda
        [⟨MultibodyPlantPtr double, "plant"⟩, ⟨FrameRef double, "frameAbar"⟩,
         ⟨RotationMatrixRef double, "R_AbarA"⟩, ⟨FrameRef double, "frameBbar"⟩,
         ⟨RotationMatrixRef double, "R_BbarB"⟩, ⟨CppType.double, "c"⟩,
         ⟨ContextPtr double, "plant_context"⟩]
        .make_unique
        ["plant", "frameAbar", "R_AbarA", "frameBbar", "R_BbarB", "c", "plant_context"],
      args := [arg "plant", arg "frameAbar", arg "R_AbarA", arg "frameBbar",
               arg "R_BbarB", arg "c", arg "plant_context"],
      keep_alive := [⟨1, 2⟩, ⟨1, 8⟩], rvp := none, doc := "cls_doc.ctor.doc_double" },
    { name := "__init__",
      impl := .init_lambda
        [⟨MultibodyPlantPtr AutoDiffXd, "plant"⟩, ⟨FrameRef AutoDiffXd, "frameAbar"⟩,
         ⟨RotationMatrixRef double, "R_AbarA"⟩, ⟨FrameRef AutoDiffXd, "frameBbar"⟩,
         ⟨RotationMatrixRef double, "R_BbarB"⟩, ⟨CppType.double, "c"⟩,
         ⟨ContextPtr AutoDiffXd, "plant_context"⟩]
        .make_unique
        ["plant", "frameAbar", "R_AbarA", "frameBbar", "R_BbarB", "c", "plant_context"],
      args := [arg "plant", arg "frameAbar", arg "R_AbarA", arg "frameBbar",
               arg "R_BbarB", arg "c", arg "plant_context"],
      keep_alive := [⟨1, 2⟩, ⟨1, 8⟩], rvp := none, doc := "cls_doc.ctor.doc_autodiff" } ]

/-- The `UnitQuaternionConstraint` class (source lines 659-665). -/
def UnitQuaternionConstraint_class : PyClass where
  scope := "m"
  name := "UnitQuaternionConstraint"
  base := some .Constraint
  holder_shared_ptr := true
  readwrite := []
  defs := [
    { name := "__init__", impl := .init_lambda [] .make_unique [],
      args := [], keep_alive := [], rvp := none, doc := "cls_doc.ctor.doc" } ]

/-- The two `m.def("AddUnitQuaternionConstraintOnPlant", ...)` entries
(source lines 666-673). -/
def module_functions : List Def := [
  { name := "AddUnitQuaternionConstraintOnPlant",
    impl := .function "AddUnitQuaternionConstraintOnPlant" .double,
    args := [arg "plant", arg "q_vars", arg "prog"],
    keep_alive := [], rvp := none, doc := "doc.AddUnitQuaternionConstraintOnPlant.doc" },
  { name := "AddUnitQuaternionConstraintOnPlant",
    impl := .function "AddUnitQuaternionConstraintOnPlant" .AutoDiffXd,
    args := [arg "plant", arg "q_vars", arg "prog"],
    keep_alive := [], rvp := none, doc := "doc.AddUnitQuaternionConstraintOnPlant.doc" } ]

open CppType EigenType Scalar in
/-- The `GlobalInverseKinematics` class (source lines 676-678, 705-771). -/
def GlobalInverseKinematics_class : PyClass where
  scope := "m"
  name := "GlobalInverseKinematics"
  base := none
  holder_shared_ptr := false
  readwrite := []
  defs := [
    { name := "__init__",
      impl := .init [MultibodyPlantRef double, OptionsRef],
      args := [arg "plant", arg_eq "options" .Options_default],
      keep_alive := [⟨1, 2⟩], rvp := none, doc := "cls_doc.ctor.doc" },
    { name := "prog", impl := .member "prog", args := [],
      keep_alive := [], rvp := some .reference_internal, doc := "cls_doc.prog.doc" },
    { name := "get_mutable_prog", impl := .member "get_mutable_prog", args := [],
      keep_alive := [], rvp := some .reference_internal,
      doc := "cls_doc.get_mutable_prog.doc" },
    { name := "body_rotation_matrix", impl := .member "body_rotation_matrix",
      args := [arg "body_index"],
      keep_alive := [], rvp := none, doc := "cls_doc.body_rotation_matrix.doc" },
    { name := "body_position", impl := .member "body_position",
      args := [arg "body_index"],
      keep_alive := [], rvp := none, doc := "cls_doc.body_position.doc" },
    { name := "ReconstructGeneralizedPositionSolution",
      impl := .member "ReconstructGeneralizedPositionSolution",
      args := [arg "result"],
      keep_alive := [], rvp := none,
      doc := "cls_doc.ReconstructGeneralizedPositionSolution.doc" },
    { name := "AddWorldPositionConstraint",
      impl := .lambda
        [⟨CppType.BodyIndex, "body_index"⟩, ⟨EigenConstRef Vector3d, "p_BQ"⟩,
         ⟨EigenConstRef Vector3d, "box_lb_F"⟩, ⟨EigenConstRef Vector3d, "box_ub_F"⟩,
         ⟨RigidTransformdRef, "X_WF"⟩]
        "AddWorldPositionConstraint"
        ["body_index", "p_BQ", "box_lb_F", "box_ub_F", "X_WF"],
      args := [arg "body_index", arg "p_BQ", arg "box_lb_F", arg "box_ub_F",
               arg_eq "X_WF" .RigidTransformd_default],
      keep_alive := [], rvp := none, doc := "cls_doc.AddWorldPositionConstraint.doc" },
    { name := "AddWorldRelativePositionConstraint",
      impl := .lambda
        [⟨CppType.BodyIndex, "body_index_B"⟩, ⟨EigenConstRef Vector3d, "p_BQ"⟩,
         ⟨CppType.BodyIndex, "body_index_A"⟩, ⟨EigenConstRef Vector3d, "p_AP"⟩,
         ⟨EigenConstRef Vector3d, "box_lb_F"⟩, ⟨EigenConstRef Vector3d, "box_ub_F"⟩,
         ⟨RigidTransformdRef, "X_WF"⟩]
        "AddWorldRelativePositionConstraint"
        ["body_index_B", "p_BQ", "body_index_A", "p_AP", "box_lb_F", "box_ub_F", "X_WF"],
      args := [arg "body_index_B", arg "p_BQ", arg "body_index_A", arg "p_AP",
               arg "box_lb_F", arg "box_ub_F", arg_eq "X_WF" .RigidTransformd_default],
      keep_alive := [], rvp := none,
      doc := "cls_doc.AddWorldRelativePositionConstraint.doc" },
    { name := "AddWorldOrientationConstraint",
      impl := .lambda
        [⟨CppType.BodyIndex, "body_index"⟩,
         ⟨EigenConstRef Quaterniond, "desired_orientation"⟩,
         ⟨CppType.double, "angle_tol"⟩]
        "AddWorldOrientationConstraint"
        ["body_index", "desired_orientation", "angle_tol"],
      args := [arg "body_index", arg "desired_orientation", arg "angle_tol"],
      keep_alive := [], rvp := none,
      doc := "cls_doc.AddWorldOrientationConstraint.doc" },
    { name := "AddPostureCost",
      impl := .lambda
        [⟨EigenRef VectorXd, "q_desired"⟩, ⟨EigenRef VectorXd, "body_position_cost"⟩,
         ⟨EigenRef VectorXd, "body_orientation_cost"⟩]
        "AddPostureCost"
        ["q_desired", "body_position_cost", "body_orientation_cost"],
      args := [arg "q_desired", arg "body_position_cost", arg "body_orientation_cost"],
      keep_alive := [], rvp := none, doc := "cls_doc.AddPostureCost.doc" },
    { name := "SetInitialGuess", impl := .member "SetInitialGuess",
      args := [arg "q"],
      keep_alive := [], rvp := none, doc := "cls_doc.SetInitialGuess.doc" } ]

/-- The `GlobalInverseKinematics::Options` class, registered in the scope of
`global_ik` (source lines 680-703). -/
def Options_class : PyClass where
  scope := "global_ik"
  name := "Options"
  base := none
  holder_shared_ptr := false
  readwrite := [
    ⟨"num_intervals_per_half_axis", "num_intervals_per_half_axis",
      "cls_doc.Options.num_intervals_per_half_axis.doc"⟩,
    ⟨"approach", "approach", "cls_doc.Options.approach.doc"⟩,
    ⟨"interval_binning", "interval_binning", "cls_doc.Options.interval_binning.doc"⟩,
    ⟨"linear_constraint_only", "linear_constraint_only",
      "cls_doc.Options.linear_constraint_only.doc"⟩ ]
  defs := [
    { name := "__init__", impl := .init [], args := [],
      keep_alive := [], rvp := none, doc := "cls_doc.Options.ctor.doc" },
    { name := "__repr__",
      impl := .repr_format
        ("GlobalInverseKinematics.Options(" ++
         "num_intervals_per_half_axis=\x7b\x7d, " ++
         "approach=\x7b\x7d, " ++
         "interval_binning=\x7b\x7d, " ++
         "linear_constraint_only=\x7b\x7d)")
        ["num_intervals_per_half_axis", "approach", "interval_binning",
         "linear_constraint_only"],
      args := [], keep_alive := [], rvp := none, doc := "" } ]

/-- The module `inverse_kinematics` (source lines 30-776). -/
def inverse_kinematics : PyModule where
  name := "inverse_kinematics"
  doc := "InverseKinematics module"
  imports := ["pydrake.math", "pydrake.multibody.plant", "pydrake.solvers"]
  classes := [
    InverseKinematics_class,
    AngleBetweenVectorsConstraint_class,
    PointToPointDistanceConstraint_class,
    PolyhedronConstraint_class,
    DistanceConstraint_class,
    GazeTargetConstraint_class,
    MinimumDistanceConstraint_class,
    PositionConstraint_class,
    PositionCost_class,
    ComPositionConstraint_class,
    ComInPolyhedronConstraint_class,
    OrientationConstraint_class,
    OrientationCost_class,
    UnitQuaternionConstraint_class,
    GlobalInverseKinematics_class,
    Options_class ]
  functions := module_functions

/-! ## Derived views of the table -/

/-- The scalar `T` of a plant, frame or context parameter type; `none` for
every other type (a `RotationMatrix<double>` is not one of the three). -/
def CppType.kinematicScalar : CppType → Option Scalar
  | .MultibodyPlantRef T => some T
  | .MultibodyPlantPtr T => some T
  | .ContextPtr T => some T
  | .FrameRef T => some T
  | _ => none

/-- Whether the type is a `MultibodyPlant<T>` reference or pointer. -/
def CppType.isPlant : CppType → Bool
  | .MultibodyPlantRef _ => true
  | .MultibodyPlantPtr _ => true
  | _ => false

/-- Whether the type is a `systems::Context<T>*`. -/
def CppType.isContext : CppType → Bool
  | .ContextPtr _ => true
  | _ => false

/-- Whether the type is a `Frame<T>` reference. -/
def CppType.isFrame : CppType → Bool
  | .FrameRef _ => true
  | _ => false

/-- Whether the entry takes a plant: one of its C++ parameters is a
`MultibodyPlant<T>`. -/
def Def.takesPlant (d : Def) : Bool := d.impl.paramTypes.any CppType.isPlant

/-- The scalar type of the first plant parameter of the entry. -/
def Def.plantScalar (d : Def) : Option Scalar :=
  (d.impl.paramTypes.find? CppType.isPlant).bind CppType.kinematicScalar

/-- The index pybind11 gives a named argument in `py::keep_alive`: `self`
is 1, the first `py::arg` is 2. -/
def Def.positionOf (d : Def) (n : String) : Nat := d.argNames.indexOf n + 2

/-- The C++ type at a keep-alive index (2 is the first parameter). -/
def Def.typeAt (d : Def) (idx : Nat) : Option CppType := d.impl.paramTypes.get? (idx - 2)

/-- The patients of the keep-alives of an entry other than the plant one. -/
def Def.contextPatients (d : Def) : List Nat :=
  (d.keep_alive.filter (fun k => k != ⟨1, 2⟩)).map (·.patient)

/-- For every constructor of the module with a `plant_context` argument:
class name, scalar type of the overload, number of `py::arg`s, and the
patients of its keep-alives other than `keep_alive<1, 2>`. -/
def plantContextKeepAlives (m : PyModule) : List (String × Option Scalar × Nat × List Nat) :=
  (m.classes.map fun c =>
    (c.ctors.filter fun d => d.argNames.contains "plant_context").map fun d =>
      (c.name, d.plantScalar, d.args.length, d.contextPatients)).flatten

/-- The constructors of the module that take no plant: class name,
`py::arg` names and keep-alives. -/
def plantFreeCtors (m : PyModule) : List (String × List String × List KeepAlive) :=
  (m.classes.map fun c =>
    (c.ctors.filter fun d => !d.takesPlant).map fun d =>
      (c.name, d.argNames, d.keep_alive)).flatten

/-- The names of the classes that have a constructor taking a plant. -/
def plantClasses (m : PyModule) : List String :=
  (m.classes.filter fun c => c.ctors.any Def.takesPlant).map (·.name)

/-- The constraint and cost classes: those registered with a base class. -/
def PyModule.constraintAndCostClasses (m : PyModule) : List PyClass :=
  m.classes.filter fun c => c.base.isSome

/-- The names of the classes registered with the given base, in source order. -/
def PyModule.classesWithBase (m : PyModule) (b : Base) : List String :=
  (m.classes.filter fun c => c.base == some b).map (·.name)

/-- The constructors of a class that take a plant. -/
def PyClass.plantCtors (c : PyClass) : List Def := c.ctors.filter Def.takesPlant

/-- The constructor shapes of a class: the distinct `py::arg` name lists of
its plant-taking constructors, in order of first appearance. -/
def PyClass.shapes (c : PyClass) : List (List String) := (c.plantCtors.map Def.argNames).dedup

/-- The plant-taking constructors of a class with the given shape. -/
def PyClass.ctorsOfShape (c : PyClass) (shape : List String) : List Def :=
  c.plantCtors.filter fun d => d.argNames == shape

/-- The scalar type a module-level function is instantiated with. -/
def Def.functionScalar (d : Def) : Option Scalar :=
  match d.impl with
  | .function _ T => some T
  | _ => none

/-- The entries of a class registered under one Python name (its overloads),
in registration order. -/
def PyClass.overloads (c : PyClass) (name : String) : List Def :=
  c.defs.filter fun d => d.name == name

/-! ## Calling a bound entry

pybind11 matches the Python call against the `py::arg` list of each overload:
positional values fill the first slots, the remaining slots take the keyword
of their name or else their default, and nothing may be left over.  The model
covers names, arity and defaults; the conversion of a value to the C++
parameter type is not modelled. -/

/-- Fill the slots that no positional value reached: keyword of the slot's
name first, the slot's default second. Returns the values and the keywords
not consumed. -/
def fillSlots {V : Type} (ev : DefaultExpr → V) :
    List PyArg → List (String × V) → Option (List V × List (String × V))
  | [], kw => some ([], kw)
  | a :: rest, kw =>
    match kw.lookup a.name with
    | some v =>
      (fillSlots ev rest (kw.filter fun e => e.1 != a.name)).map fun r => (v :: r.1, r.2)
    | none =>
      match a.default with
      | some e => (fillSlots ev rest kw).map fun r => (ev e :: r.1, r.2)
      | none => none

/-- Load the arguments of one overload from a call with positional values
`pos` (after `self`) and keyword values `kw`. The result lists one value per
`py::arg`, in order; `none` when the overload does not match: too many
positional values, a slot given both positionally and by keyword, a slot with
neither value nor default, or a keyword that names no remaining slot. -/
def loadArgs {V : Type} (ev : DefaultExpr → V) (sig : List PyArg) (pos : List V)
    (kw : List (String × V)) : Option (List V) :=
  if sig.length < pos.length then none
  else if (sig.take pos.length).any (fun a => kw.any fun e => e.1 == a.name) then none
  else
    match fillSlots ev (sig.drop pos.length) kw with
    | some (vals, []) => some (pos ++ vals)
    | _ => none

/-- A call of a native operation: its name and its arguments in order. -/
structure NativeCall (V : Type) where
  callee : String
  args : List V
deriving DecidableEq, Repr

/-- Evaluate the argument list written in a lambda body: each argument is
the name of a lambda parameter, bound to the loaded value at that position. -/
def forwardArgs {V : Type} (params : List String) (vals : List V) (args : List String) :
    Option (List V) :=
  args.mapM fun n => (params.zip vals).lookup n

/-- The native call an entry makes with the loaded argument values. A lambda
forwards the arguments its body names; `py::init<...>` and a function or
member pointer pass the loaded values on in order. The `__repr__` lambda
makes no native call. -/
def Impl.forward {V : Type} (vals : List V) : Impl → Option (NativeCall V)
  | .init _ => some ⟨"Class", vals⟩
  | .init_lambda ps _ as => (forwardArgs (ps.map (·.name)) vals as).map fun vs => ⟨"Class", vs⟩
  | .lambda ps callee as => (forwardArgs (ps.map (·.name)) vals as).map fun vs => ⟨callee, vs⟩
  | .member n => some ⟨n, vals⟩
  | .function n _ => some ⟨n, vals⟩
  | .repr_format _ _ => none

/-- Call one overload: load the arguments, then make the native call. -/
def Def.invoke {V : Type} (ev : DefaultExpr → V) (d : Def) (pos : List V)
    (kw : List (String × V)) : Option (NativeCall V) :=
  (loadArgs ev d.args pos kw).bind fun vals => d.impl.forward vals

/-- Call a Python name of a class: the native calls of the overloads whose
argument loading accepts the call, in registration order. The empty list
means that every overload rejects the call. -/
def PyClass.call {V : Type} (ev : DefaultExpr → V) (c : PyClass) (name : String)
    (pos : List V) (kw : List (String × V)) : List (NativeCall V) :=
  (c.overloads name).filterMap fun d => d.invoke ev pos kw

/-! ## `GlobalInverseKinematics::Options` and its read-write fields -/

/-- Modelled from the spec: the struct `GlobalInverseKinematics::Options` is
declared in `global_inverse_kinematics.h`, which is not among the sources.
Its four data members are the ones the file names in `def_readwrite`; their
types follow section 3 of the spec: an integer (taken to be a C++ `int`),
the choice of relaxation approach, the interval-binning scheme and a flag.
The two enumeration types are parameters. -/
structure Options (Approach IntervalBinning : Type) where
  num_intervals_per_half_axis : Int
  approach : Approach
  interval_binning : IntervalBinning
  linear_constraint_only : Bool
deriving DecidableEq, Repr

/-- The member pointers `&GlobalInverseKinematics::Options::member`. -/
inductive OptionsMember
  | num_intervals_per_half_axis
  | approach
  | interval_binning
  | linear_constraint_only
deriving DecidableEq, Repr

/-- Resolve the member a `def_readwrite` entry points to. -/
def OptionsMember.ofName (n : String) : Option OptionsMember :=
  if n = "num_intervals_per_half_axis" then some .num_intervals_per_half_axis
  else if n = "approach" then some .approach
  else if n = "interval_binning" then some .interval_binning
  else if n = "linear_constraint_only" then some .linear_constraint_only
  else none

/-- A value of one of the four member types. -/
inductive MemberValue (Approach IntervalBinning : Type)
  | int (i : Int)
  | approach (a : Approach)
  | interval_binning (b : IntervalBinning)
  | bool (b : Bool)
deriving DecidableEq, Repr

/-- Whether an integer fits the C++ `int` of the member (32 bits); a
value outside the range does not convert and the write is refused. -/
def fitsInt (i : Int) : Bool := decide (-2147483648 ≤ i) && decide (i ≤ 2147483647)

/-- The getter `def_readwrite` installs: `return c.*pm`. -/
def Options.read {A B : Type} (o : Options A B) : OptionsMember → MemberValue A B
  | .num_intervals_per_half_axis => .int o.num_intervals_per_half_axis
  | .approach => .approach o.approach
  | .interval_binning => .interval_binning o.interval_binning
  | .linear_constraint_only => .bool o.linear_constraint_only

/-- The setter `def_readwrite` installs: `c.*pm = value`. It applies to a
value of the member's type only. -/
def Options.write {A B : Type} (o : Options A B) :
    OptionsMember → MemberValue A B → Option (Options A B)
  | .num_intervals_per_half_axis, .int i =>
    if fitsInt i then some { o with num_intervals_per_half_axis := i } else none
  | .approach, .approach a => some { o with approach := a }
  | .interval_binning, .interval_binning b => some { o with interval_binning := b }
  | .linear_constraint_only, .bool b => some { o with linear_constraint_only := b }
  | _, _ => none

/-- The member a Python attribute name of the class resolves to, through the
`def_readwrite` entries of the class. -/
def PyClass.member (c : PyClass) (name : String) : Option OptionsMember :=
  (c.readwrite.find? fun rw => rw.name == name).bind fun rw => OptionsMember.ofName rw.member

/-- Read the attribute `name` of an `Options` object. -/
def getattr {A B : Type} (c : PyClass) (o : Options A B) (name : String) :
    Option (MemberValue A B) :=
  (c.member name).map o.read

/-- Write `v` to the attribute `name` of an `Options` object; `none` when
the class has no such read-write attribute or the value does not convert. -/
def setattr {A B : Type} (c : PyClass) (o : Options A B) (name : String)
    (v : MemberValue A B) : Option (Options A B) :=
  (c.member name).bind fun m => o.write m v

/-! ## Tables read off the registrations -/

/-- The scalars of the parameters of an entry whose type satisfies `p`. -/
def Def.scalarsOf (d : Def) (p : CppType → Bool) : List Scalar :=
  (d.impl.paramTypes.filter p).filterMap CppType.kinematicScalar

/-- For every plant-taking constructor of a constraint or cost class: the
class name and the scalars of its plant, frame and context parameters. -/
def kinematicScalars (m : PyModule) :
    List (String × List Scalar × List Scalar × List Scalar) :=
  (m.constraintAndCostClasses.map fun c =>
    c.plantCtors.map fun d =>
      (c.name, d.scalarsOf CppType.isPlant, d.scalarsOf CppType.isFrame,
        d.scalarsOf CppType.isContext)).flatten

/-- For every constraint or cost class: its name, the number of its
constructor shapes and the number of its plant-taking constructors. -/
def shapeCounts (m : PyModule) : List (String × Nat × Nat) :=
  m.constraintAndCostClasses.map fun c => (c.name, c.shapes.length, c.plantCtors.length)

/-- The bar-frame bindings of the position constraint: the entries of the
module that have an `X_AbarA` argument, with the name of their class. -/
def barFrameBindings (m : PyModule) : List (String × Def) :=
  (m.classes.map fun c =>
    (c.defs.filter fun d => d.argNames.contains "X_AbarA").map fun d => (c.name, d)).flatten


/-! ## Sequences of attribute writes -/

/-- Apply a sequence of attribute writes to an `Options` object, in order. A
write that is refused raises on the Python side and leaves the object as it
was. -/
def writeAll {A B : Type} (c : PyClass) (o : Options A B)
    (ws : List (String × MemberValue A B)) : Options A B :=
  ws.foldl (fun acc w => (setattr c acc w.1 w.2).getD acc) o

/-! ## Return-value policies and lambda wrappers -/

/-- The keep-alive a return-value policy implies: `reference_internal` is
`reference` together with `keep_alive<0, 1>`, where index 0 is the returned
object and index 1 is `self`. No policy implies none. -/
def Rvp.keep_alive : Option Rvp → List KeepAlive
  | some .reference_internal => [⟨0, 1⟩]
  | none => []

/-- The entries of the module that declare a return-value policy: class
name, Python name and policy. -/
def entriesWithPolicy (m : PyModule) : List (String × String × Rvp) :=
  (m.classes.map fun c =>
    c.defs.filterMap fun d => d.rvp.map fun p => (c.name, d.name, p)).flatten

/-- The methods of a class that take no argument besides `self`, bound to a
member pointer: its accessors. -/
def PyClass.accessors (c : PyClass) : List Def :=
  c.methods.filter fun d =>
    d.args.isEmpty && (match d.impl with
      | .member _ => true
      | _ => false)

/-- Whether an entry is a lambda wrapper: a lambda whose body is one call of
a native operation or of a constructor. -/
def Impl.isWrapper : Impl → Bool
  | .init_lambda _ _ _ => true
  | .lambda _ _ _ => true
  | _ => false

/-- Whether an entry is bound to a lambda of any form. -/
def Impl.isLambda : Impl → Bool
  | .init_lambda _ _ _ => true
  | .lambda _ _ _ => true
  | .repr_format _ _ => true
  | _ => false

/-- The operation the body of a lambda wrapper calls: the named member for a
method lambda, the constructor of `Class` for a constructor lambda. -/
def Impl.callee : Impl → Option String
  | .init_lambda _ _ _ => some "Class"
  | .lambda _ callee _ => some callee
  | _ => none

/-- The argument list written in the body of a lambda wrapper. -/
def Impl.callArgs : Impl → List String
  | .init_lambda _ _ as => as
  | .lambda _ _ as => as
  | _ => []

/-- The lambda wrappers of the module with the name of their class, in
source order. -/
def lambdaWrappers (m : PyModule) : List (String × Def) :=
  (m.classes.map fun c =>
    (c.defs.filter fun d => d.impl.isWrapper).map fun d => (c.name, d)).flatten

/-- The Python names of the lambda wrappers, class by class. -/
def lambdaWrapperNames (m : PyModule) : List (String × List String) :=
  (m.classes.map fun c =>
    (c.name, (c.defs.filter fun d => d.impl.isWrapper).map (·.name))).filter
      fun e => !e.2.isEmpty

/-! ## The `AddX` methods and the constructors of class `X` -/

/-- Whether two lists hold the same set of names. -/
def sameNames (a b : List String) : Bool :=
  a.all (fun n => b.contains n) && b.all (fun n => a.contains n)

/-- The argument names of a constructor shape without `plant` and
`plant_context`. -/
def withoutPlantAndContext (shape : List String) : List String :=
  shape.filter fun n => n != "plant" && n != "plant_context"

/-- The `AddX` methods of `InverseKinematics`, each with the class `X` the
module registers under the name that follows `Add`. -/
def addMethods (m : PyModule) : List (Def × PyClass) :=
  InverseKinematics_class.methods.filterMap fun d =>
    (m.classes.find? fun c => "Add" ++ c.name == d.name).map fun c => (d, c)

/-- For every `AddX` method: its name, its keyword names and whether they
are, as a set, the keyword names of a constructor shape of `X` with `plant`
and `plant_context` removed. -/
def addMethodAgreement (m : PyModule) : List (String × List String × Bool) :=
  (addMethods m).map fun e =>
    (e.1.name, e.1.argNames,
      e.2.shapes.any fun s => sameNames e.1.argNames (withoutPlantAndContext s))

/-- For every `AddX` method whose keyword names agree with no constructor
shape of `X`: its name, the names only the method has and the names only the
constructor shapes have. -/
def addMethodDifferences (m : PyModule) : List (String × List String × List String) :=
  ((addMethods m).filter fun e =>
    !(e.2.shapes.any fun s => sameNames e.1.argNames (withoutPlantAndContext s))).map fun e =>
    (e.1.name,
      e.1.argNames.filter (fun n => !(e.2.shapes.any fun s => s.contains n)),
      ((e.2.shapes.map withoutPlantAndContext).flatten.dedup).filter
        fun n => !e.1.argNames.contains n)

/-- For every `AddX` method whose keyword names agree with a constructor
shape of `X`: its name and whether the names also come in the same order. -/
def addMethodOrder (m : PyModule) : List (String × Bool) :=
  ((addMethods m).filter fun e =>
    e.2.shapes.any fun s => sameNames e.1.argNames (withoutPlantAndContext s)).map fun e =>
    (e.1.name, e.2.shapes.any fun s => e.1.argNames == withoutPlantAndContext s)

/-! ## Argument values and their conversion to the C++ parameter types

The constructor lambdas and `py::init<...>` lists write the C++ type of every
parameter; pybind11 converts each loaded value to that type and rejects the
overload when one does not convert. The values below are the ones that the
claims about construction range over. -/

/-- The Python-side argument values the model distinguishes. -/
inductive PyValue
  /-- The object `None`. -/
  | none
  /-- A Python float. -/
  | float (x : ℚ)
  /-- A numpy array of floats with the given shape. -/
  | array (shape : List Nat)
  /-- A `MultibodyPlant_[T]`, identified by `id`. -/
  | plant (T : Scalar) (id : Nat)
  /-- A `Context_[T]` created for the plant with the given identity. -/
  | context (T : Scalar) (plant : Nat)
  /-- A `Frame_[T]`. -/
  | frame (T : Scalar)
  /-- An object of a class the model does not look into (a rotation matrix,
  a rigid transform, a pair of geometry ids, a list of model instances, a
  penalty function, a flag), named by `tag`. -/
  | other (tag : String)
deriving DecidableEq, Repr

/-- Compile-time rows and columns of an Eigen matrix type (`none` stands for
`Eigen::Dynamic`); `Quaterniond` is not a matrix type. -/
def EigenType.dims : EigenType → Option (Option Nat × Option Nat)
  | .Vector3d => some (some 3, some 1)
  | .VectorXd => some (none, some 1)
  | .Matrix3d => some (some 3, some 3)
  | .Matrix3Xd => some (some 3, none)
  | .MatrixX3d => some (none, some 3)
  | .MatrixXd => some (none, none)
  | .Quaterniond => none

/-- The conformability test of `pybind11/eigen.h`: the rows and columns of the
Eigen object a numpy array of the given shape is read as, or `none` when the
array does not fit the type. A two-dimensional array must match every fixed
dimension; a one-dimensional array fits a compile-time vector of that size or
of dynamic size, fits no other fully fixed type, and otherwise becomes one row
(fixed column count equal to its length) or one column. -/
def conformable (rows cols : Option Nat) : List Nat → Option (Nat × Nat)
  | [r, c] =>
    if (rows.all fun k => k == r) && (cols.all fun k => k == c) then some (r, c) else none
  | [n] =>
    if rows == some 1 || cols == some 1 then
      match rows, cols with
      | some r, some c => if r * c == n then some (r, c) else none
      | _, _ => some (if rows == some 1 then 1 else n, if cols == some 1 then 1 else n)
    else
      match rows, cols with
      | some _, some _ => none
      | _, some c => if c == n then some (1, n) else none
      | some r, none => if r == n then some (n, 1) else none
      | none, none => some (n, 1)
  | _ => none

/-- The value an array of the given shape converts to for an Eigen parameter:
an array of the conformed two-dimensional shape. -/
def EigenType.conform (M : EigenType) (shape : List Nat) : Option PyValue :=
  match M.dims with
  | some (rows, cols) => (conformable rows cols shape).map fun rc => .array [rc.1, rc.2]
  | none => none

/-- Parameter types that accept `None`: raw pointers, `std::optional`, the
`std::function` of the penalty function and `bool`. -/
def CppType.acceptsNone : CppType → Bool
  | .MultibodyPlantPtr _ => true
  | .ContextPtr _ => true
  | .OptionalRigidTransformdRef => true
  | .OptionalModelInstancesRef => true
  | .OptionalModelInstances => true
  | .MinimumDistancePenaltyFunction => true
  | .bool => true
  | _ => false

/-- Parameter types whose values the model does not look into. -/
def CppType.isOpaque : CppType → Bool
  | .RotationMatrixRef _ => true
  | .EigenConstRef .Quaterniond => true
  | .EigenRef .Quaterniond => true
  | .RigidTransformdRef => true
  | .OptionalRigidTransformdRef => true
  | .OptionalModelInstancesRef => true
  | .OptionalModelInstances => true
  | .SortedPairGeometryId => true
  | .MinimumDistancePenaltyFunction => true
  | .OptionsRef => true
  | .BodyIndex => true
  | .bool => true
  | _ => false

/-- Convert a value to a C++ parameter type; `none` when it does not convert.
A plant, context or frame converts to the parameter of its own class and
scalar type only; a float to `double` (and to `bool`); an array to an Eigen
matrix type it conforms to; `None` to a pointer, an optional, the penalty
function or `bool`; an object the model does not look into to a parameter of
such a class. (pybind11 also reads a one-element array as a scalar; the model
does not.) -/
def CppType.convert (t : CppType) : PyValue → Option PyValue
  | .plant T p =>
    if t = .MultibodyPlantRef T ∨ t = .MultibodyPlantPtr T then some (.plant T p) else none
  | .context T p => if t = .ContextPtr T then some (.context T p) else none
  | .frame T => if t = .FrameRef T then some (.frame T) else none
  | .float x => if t = .double ∨ t = .bool then some (.float x) else none
  | .array shape =>
    match t with
    | .EigenRef M => M.conform shape
    | .EigenConstRef M => M.conform shape
    | _ => none
  | .none => if t.acceptsNone then some .none else none
  | .other tag => if t.isOpaque then some (.other tag) else none

/-- Convert the loaded values to the parameter types, position by position;
`none` when the counts differ or one value does not convert. -/
def convertArgs : List CppType → List PyValue → Option (List PyValue)
  | [], [] => some []
  | t :: ts, v :: vs =>
    match t.convert v, convertArgs ts vs with
    | some c, some cs => some (c :: cs)
    | _, _ => none
  | _, _ => none

/-- The C++ signature the file writes for an entry; `none` for a member or
function pointer, whose signature is declared in a header. -/
def Impl.signature : Impl → Option (List CppType)
  | .init ts => some ts
  | .init_lambda ps _ _ => some (ps.map (·.type))
  | .lambda ps _ _ => some (ps.map (·.type))
  | _ => none

/-- The Python values of the default expressions. -/
def evalDefault : DefaultExpr → PyValue
  | .true_ => .other "True"
  | .float_1_0 => .float 1
  | .int_1 => .float 1
  | .MinimumDistancePenaltyFunction_empty => .other "MinimumDistancePenaltyFunction"
  | .Options_default => .other "GlobalInverseKinematics.Options"
  | .RigidTransformd_default => .other "RigidTransform"

/-- Call one overload with argument conversion: load the arguments, convert
them to the written signature, then make the native call. An entry without a
written signature passes the loaded values on. -/
def Def.invokeTyped (d : Def) (pos : List PyValue) (kw : List (String × PyValue)) :
    Option (NativeCall PyValue) :=
  (loadArgs evalDefault d.args pos kw).bind fun vals =>
    match d.impl.signature with
    | some ts => (convertArgs ts vals).bind fun cs => d.impl.forward cs
    | none => d.impl.forward vals

/-! ## Construction-time validation of the native constructors

The constructors of the constraint and cost classes are implemented in the
native library, not in the binding file; the binding passes its arguments on
and lets a construction error propagate. Their validation is modelled from
the spec. The order of the native parameters is the order in which the
constructor lambdas pass them. -/

/-- The construction-time validation errors of section 7 of the spec that
the model covers. -/
inductive ConstructionError
  | plant_context_mismatch
  | array_dimension_mismatch
  | angle_out_of_range
deriving DecidableEq, Repr

/-- Modelled from the spec: the native constructors are not among the
sources. The position of the context among the arguments of a native
constructor with `n` arguments: the third argument of `DistanceConstraint`
and `MinimumDistanceConstraint`, the last argument of every other one. -/
def contextIndex (cls : String) (n : Nat) : Nat :=
  if cls = "DistanceConstraint" ∨ cls = "MinimumDistanceConstraint" then 2 else n - 1

/-- Modelled from the spec: the native constructors are not among the
sources. Section 4.2: each constructor that accepts a plant pointer also
accepts a context pointer, and construction fails when the context's plant
identity does not match. The plant is the first argument. -/
def checkPlantContext (cls : String) (args : List PyValue) : Bool :=
  match args.head?, args.get? (contextIndex cls args.length) with
  | some (.plant T p), some (.context T' p') => T == T' && p == p'
  | _, _ => false

/-- Whether an angle lies in the closed interval from 0 to `pi`. -/
def angleInRange (pi θ : ℚ) : Bool := decide (0 ≤ θ) && decide (θ ≤ pi)

/-- Modelled from the spec: the native constructors are not among the
sources. The validation the spec states for single classes: `theta_bound` of
an orientation constraint and both angle bounds of an
angle-between-vectors constraint must lie in `[0, π]` (section 4.2), and the
bound arrays must match the residual dimension (section 3): the length of
`b` of a polyhedron constraint and the lengths of `lb` and `ub` of a
center-of-mass-in-polyhedron constraint equal the number of rows of `A`. The
bound `pi` is a parameter. -/
def checkArguments (pi : ℚ) (cls : String) (args : List PyValue) :
    Except ConstructionError Unit :=
  if cls = "OrientationConstraint" then
    match args with
    | [_, _, _, _, _, .float θ, _] =>
      if angleInRange pi θ then .ok () else .error .angle_out_of_range
    | _ => .ok ()
  else if cls = "AngleBetweenVectorsConstraint" then
    match args with
    | [_, _, _, _, _, .float lower, .float upper, _] =>
      if angleInRange pi lower && angleInRange pi upper then .ok ()
      else .error .angle_out_of_range
    | _ => .ok ()
  else if cls = "PolyhedronConstraint" then
    match args with
    | [_, _, _, _, .array [m, _], .array [l, _], _] =>
      if l = m then .ok () else .error .array_dimension_mismatch
    | _ => .ok ()
  else if cls = "ComInPolyhedronConstraint" then
    match args with
    | [_, _, _, .array [m, _], .array [l, _], .array [u, _], _] =>
      if l = m ∧ u = m then .ok () else .error .array_dimension_mismatch
    | _ => .ok ()
  else .ok ()

/-- Modelled from the spec: the native constructors are not among the
sources. Construction of an object of a constraint or cost class from the
arguments the binding passes: `UnitQuaternionConstraint` takes no argument
and validates nothing; every other class checks the context against the
plant and then its own arguments. Validation errors abort construction
(section 7). -/
def nativeConstruct (pi : ℚ) (cls : String) (args : List PyValue) :
    Except ConstructionError Unit :=
  if cls = "UnitQuaternionConstraint" then .ok ()
  else if checkPlantContext cls args then checkArguments pi cls args
  else .error .plant_context_mismatch

/-- Construct through one constructor overload: `none` when the overload
does not accept the call, otherwise the outcome of the native constructor of
the class. -/
def Def.construct (pi : ℚ) (cls : String) (d : Def) (pos : List PyValue)
    (kw : List (String × PyValue)) : Option (Except ConstructionError Unit) :=
  (d.invokeTyped pos kw).map fun call => nativeConstruct pi cls call.args

/-- Construct an object of a class from Python: the constructor overloads
are tried in registration order and the first that accepts the call
constructs. `none` means that no overload accepts the call. -/
def PyClass.construct (pi : ℚ) (c : PyClass) (pos : List PyValue)
    (kw : List (String × PyValue)) : Option (Except ConstructionError Unit) :=
  c.ctors.findSome? fun d => d.construct pi c.name pos kw

/-- Modelled from the spec: the plant and the context a Local IK session is
bound to (section 4.4). -/
structure Session where
  plant : PyValue
  context : PyValue
deriving DecidableEq, Repr

/-- Modelled from the spec: `InverseKinematics::AddOrientationConstraint` and
`InverseKinematics::AddAngleBetweenVectorsConstraint` are not among the
sources. Section 4.4: each convenience method constructs the corresponding
constraint bound to the session's plant and context; the angle arguments are
doubles. `none` for a call of another operation or with other arguments. -/
def nativeAdd (pi : ℚ) (s : Session) (call : NativeCall PyValue) :
    Option (Except ConstructionError Unit) :=
  if call.callee = "AddOrientationConstraint" then
    match call.args with
    | [frameAbar, R_AbarA, frameBbar, R_BbarB, .float θ] =>
      some (nativeConstruct pi "OrientationConstraint"
        [s.plant, frameAbar, R_AbarA, frameBbar, R_BbarB, .float θ, s.context])
    | _ => none
  else if call.callee = "AddAngleBetweenVectorsConstraint" then
    match call.args with
    | [frameA, a_A, frameB, b_B, .float lower, .float upper] =>
      some (nativeConstruct pi "AngleBetweenVectorsConstraint"
        [s.plant, frameA, a_A, frameB, b_B, .float lower, .float upper, s.context])
    | _ => none
  else none

/-- Call an `AddX` method of an `InverseKinematics` session from Python: the
binding loads the arguments and calls the native method. -/
def Session.add (pi : ℚ) (s : Session) (name : String) (pos : List PyValue)
    (kw : List (String × PyValue)) : Option (Except ConstructionError Unit) :=
  (InverseKinematics_class.overloads name).findSome? fun d =>
    (d.invokeTyped pos kw).bind fun call => nativeAdd pi s call

/-- The names of the constructor parameters of the constraint and cost
classes that are fixed-size 3-vectors (`Eigen::Ref<const Eigen::Vector3d>`),
without repetition. -/
def vector3Parameters (m : PyModule) : List String :=
  ((m.constraintAndCostClasses.map fun c =>
    (c.ctors.map fun d =>
      match d.impl with
      | .init_lambda ps _ _ =>
        (ps.filter fun p => p.type == .EigenRef .Vector3d).map (·.name)
      | _ => []).flatten).flatten).dedup

/-! ## Arguments with a default value -/

/-- The arguments of an entry that have a default: Python name of the entry,
argument name and default expression. -/
def Def.defaults (d : Def) : List (String × String × DefaultExpr) :=
  d.args.filterMap fun a => a.default.map fun e => (d.name, a.name, e)

/-- Every argument of the module that has a default value, in source order:
class name (the module name for an `m.def` entry), Python name of the entry,
argument name and default expression. -/
def argumentsWithDefault (m : PyModule) : List (String × String × String × DefaultExpr) :=
  (m.classes.map fun c =>
    (c.defs.map fun d => d.defaults.map fun e => (c.name, e))).flatten.flatten ++
  (m.functions.map fun d => d.defaults.map fun e => (m.name, e)).flatten

/-- The number of `py::arg` declarations of the module. -/
def argumentCount (m : PyModule) : Nat :=
  ((m.classes.map fun c => (c.defs.map fun d => d.args.length).sum).sum) +
  (m.functions.map fun d => d.args.length).sum

/-! ## The `__repr__` of `Options` -/

/-- Python `str.format` for a format string whose replacement fields are all
the automatically numbered `\x7b\x7d`: each field takes the next argument, a
doubled brace stands for one brace, and the text of an argument is not read
again. `none` when the arguments run out or the format string holds another
kind of field or a single brace; arguments left over are ignored. -/
def formatChars : List Char → List String → Option (List Char)
  | [], _ => some []
  | c :: rest, args =>
    if c = '\x7b' then
      match rest, args with
      | d :: rest', a :: args' =>
        if d = '\x7d' then (formatChars rest' args').map fun out => a.data ++ out
        else if d = '\x7b' then (formatChars rest' args).map fun out => '\x7b' :: out
        else none
      | d :: rest', [] =>
        if d = '\x7b' then (formatChars rest' []).map fun out => '\x7b' :: out
        else none
      | [], _ => none
    else if c = '\x7d' then
      match rest with
      | d :: rest' =>
        if d = '\x7d' then (formatChars rest' args).map fun out => '\x7d' :: out
        else none
      | [] => none
    else (formatChars rest args).map fun out => c :: out

/-- The text `py::str(format).format(args...)` evaluates to. -/
def pyFormat (format : String) (args : List String) : Option String :=
  (formatChars format.data args).map String.mk

/-- The text Python's `str` gives for a member value: decimal digits for
the integer, `True` or `False` for the flag, and the rendering of the two
enumeration types, which is a parameter. -/
def MemberValue.render {A B : Type} (strA : A → String) (strB : B → String) :
    MemberValue A B → String
  | .int i => toString i
  | .approach a => strA a
  | .interval_binning b => strB b
  | .bool b => if b then "True" else "False"

/-- The `__repr__` of an object of a class: the format string of the
`__repr__` lambda filled with the renderings of the members the lambda names,
in the order in which it names them. `none` when the class binds no such
lambda. -/
def pyRepr {A B : Type} (c : PyClass) (strA : A → String) (strB : B → String)
    (o : Options A B) : Option String :=
  (c.overloads "__repr__").head?.bind fun d =>
    match d.impl with
    | .repr_format format fields =>
      (fields.mapM fun f =>
        (OptionsMember.ofName f).map fun m => (o.read m).render strA strB).bind
        fun args => pyFormat format args
    | _ => none

/-! ## Lemmas about the call model -/

/-- A keyword that `lookup` finds is among the keys. -/
theorem lookup_mem_keys {V : Type} (n : String) (v : V) :
    ∀ kw : List (String × V), kw.lookup n = some v → n ∈ kw.map Prod.fst := by
  intro kw
  induction kw with
  | nil => intro h; simp [List.lookup] at h
  | cons e rest ih =>
    intro h
    obtain ⟨k, w⟩ := e
    by_cases hk : n = k
    · subst hk; simp
    · have hb : (n == k) = false := by simpa using hk
      rw [List.lookup, hb] at h
      simp only [List.map_cons, List.mem_cons]
      exact Or.inr (ih h)

/-- When the remaining slots are filled, every slot without a default took
a keyword. -/
theorem fillSlots_required {V : Type} (ev : DefaultExpr → V) :
    ∀ (sig : List PyArg) (kw : List (String × V)) (r : List V × List (String × V)),
      fillSlots ev sig kw = some r →
      ∀ a ∈ sig, a.default = none → a.name ∈ kw.map Prod.fst := by
  intro sig
  induction sig with
  | nil => intro kw r _ a ha; simp at ha
  | cons a0 rest ih =>
    intro kw r h a ha hd
    unfold fillSlots at h
    cases hl : kw.lookup a0.name with
    | some v =>
      rw [hl] at h
      simp only [Option.map_eq_some'] at h
      obtain ⟨r', hr', _⟩ := h
      rcases List.mem_cons.mp ha with rfl | hmem
      · exact lookup_mem_keys _ v kw hl
      · have := ih _ r' hr' a hmem hd
        rcases List.mem_map.mp this with ⟨e, he, hen⟩
        exact List.mem_map.mpr ⟨e, (List.mem_filter.mp he).1, hen⟩
    | none =>
      rw [hl] at h
      cases hdef : a0.default with
      | none => rw [hdef] at h; simp at h
      | some e =>
        rw [hdef] at h
        simp only [Option.map_eq_some'] at h
        obtain ⟨r', hr', _⟩ := h
        rcases List.mem_cons.mp ha with rfl | hmem
        · rw [hdef] at hd; cases hd
        · exact ih _ r' hr' a hmem hd

/-- An overload that loads a call got at most as many positional values as
it has slots, and a keyword for every later slot without a default. -/
theorem loadArgs_required {V : Type} (ev : DefaultExpr → V) (sig : List PyArg)
    (pos : List V) (kw : List (String × V)) (vals : List V)
    (h : loadArgs ev sig pos kw = some vals) :
    pos.length ≤ sig.length ∧
    ∀ a ∈ sig.drop pos.length, a.default = none → a.name ∈ kw.map Prod.fst := by
  unfold loadArgs at h
  split at h
  · cases h
  · rename_i hlen
    split at h
    · cases h
    · split at h
      · rename_i vs hfill
        exact ⟨Nat.le_of_not_lt hlen, fillSlots_required ev _ _ _ hfill⟩
      · cases h

/-- An element at or after index `n` of a list is in the list without its
first `n` elements. -/
theorem mem_drop_of_le_indexOf (x : String) :
    ∀ (l : List String) (n : Nat), x ∈ l → n ≤ l.indexOf x → x ∈ l.drop n := by
  intro l
  induction l with
  | nil => intro n h; simp at h
  | cons y rest ih =>
    intro n hx hn
    cases n with
    | zero => simpa using hx
    | succ k =>
      by_cases hxy : y = x
      · subst hxy
        simp at hn
      · have hrest : x ∈ rest := by
          rcases List.mem_cons.mp hx with h | h
          · exact absurd h.symm hxy
          · exact h
        have hidx : (y :: rest).indexOf x = rest.indexOf x + 1 := by
          simp [List.indexOf_cons, hxy]
        rw [hidx] at hn
        simpa using ih k hrest (Nat.le_of_succ_le_succ hn)

/-- A call that an entry accepts supplies every argument declared without a
default, positionally or by keyword. -/
theorem invoke_supplies {V : Type} (ev : DefaultExpr → V) (d : Def) (n : String)
    (hn : n ∈ d.argNames) (hreq : ∀ a ∈ d.args, a.name = n → a.default = none)
    (pos : List V) (kw : List (String × V)) (call : NativeCall V)
    (h : d.invoke ev pos kw = some call) :
    d.argNames.indexOf n < pos.length ∨ n ∈ kw.map Prod.fst := by
  unfold Def.invoke at h
  cases hl : loadArgs ev d.args pos kw with
  | none => rw [hl] at h; cases h
  | some vals =>
    have hr := (loadArgs_required ev _ _ _ _ hl).2
    by_cases hlt : d.argNames.indexOf n < pos.length
    · exact Or.inl hlt
    · right
      have hmem := mem_drop_of_le_indexOf n d.argNames pos.length hn (Nat.le_of_not_lt hlt)
      unfold Def.argNames at hmem
      rw [← List.map_drop] at hmem
      rcases List.mem_map.mp hmem with ⟨a, ha, han⟩
      exact han ▸ hr a ha (hreq a (List.mem_of_mem_drop ha) han)

/-! ## Lemmas about the read-write fields -/

/-- The attribute names of the `Options` class resolve to the members of
the same name. -/
theorem Options_member_eq (name : String) :
    Options_class.member name = OptionsMember.ofName name := by
  unfold PyClass.member OptionsMember.ofName
  simp only [Options_class, List.find?]
  by_cases h1 : name = "num_intervals_per_half_axis"
  · subst h1; rfl
  · by_cases h2 : name = "approach"
    · subst h2; rfl
    · by_cases h3 : name = "interval_binning"
      · subst h3; rfl
      · by_cases h4 : name = "linear_constraint_only"
        · subst h4; rfl
        · have e1 : ("num_intervals_per_half_axis" == name) = false := by
            simpa using fun h => h1 h.symm
          have e2 : ("approach" == name) = false := by simpa using fun h => h2 h.symm
          have e3 : ("interval_binning" == name) = false := by simpa using fun h => h3 h.symm
          have e4 : ("linear_constraint_only" == name) = false := by
            simpa using fun h => h4 h.symm
          simp [e1, e2, e3, e4, h1, h2, h3, h4]

/-- Two names that resolve to the same member are the same name. -/
theorem ofName_injective (n n' : String) (m : OptionsMember)
    (h : OptionsMember.ofName n = some m) (h' : OptionsMember.ofName n' = some m) : n = n' := by
  unfold OptionsMember.ofName at h h'
  split_ifs at h h' <;> first
    | (simp_all; done)
    | (cases h; cases h')

/-- A write to one member is read back and changes no other member. -/
theorem write_read {A B : Type} (o o' : Options A B) (m : OptionsMember) (v : MemberValue A B)
    (h : o.write m v = some o') :
    o'.read m = v ∧ ∀ m', m' ≠ m → o'.read m' = o.read m' := by
  cases m <;> cases v <;> simp only [Options.write] at h <;> (try split_ifs at h) <;>
    (try cases h) <;> first
    | done
    | (refine ⟨rfl, ?_⟩
       intro m' hm
       cases m' <;> first | rfl | exact absurd rfl hm)

/-- A write to one attribute is read back and changes no other attribute. -/
theorem setattr_getattr {A B : Type} (o o' : Options A B) (name : String) (v : MemberValue A B)
    (h : setattr Options_class o name v = some o') :
    getattr Options_class o' name = some v ∧
    ∀ name', name' ≠ name → getattr Options_class o' name' = getattr Options_class o name' := by
  unfold setattr at h
  unfold getattr
  rw [Options_member_eq] at h
  cases hm : OptionsMember.ofName name with
  | none => rw [hm] at h; cases h
  | some m =>
    rw [hm] at h
    have hw := write_read o o' m v h
    refine ⟨?_, ?_⟩
    · rw [Options_member_eq, hm]; simp [hw.1]
    · intro name' hne
      rw [Options_member_eq]
      cases hm' : OptionsMember.ofName name' with
      | none => rfl
      | some m' =>
        have : m' ≠ m := by
          intro e
          subst e
          exact hne (ofName_injective _ _ _ hm' hm)
        simp [hw.2 m' this]

/-! ## The claims -/

/-- C1: every constructor binding of the module that has a `plant_context`
argument declares a keep-alive with nurse 1 (self) whose patient is exactly
the position of `plant_context` (self counted as 1, the first argument as 2),
and the parameter at that position is the `Context<T>*`. The positions are 3
for `InverseKinematics`, 4 for `DistanceConstraint` and
`MinimumDistanceConstraint`, 5 for `ComPositionConstraint`, 8 for
`PolyhedronConstraint`, `PositionConstraint` (frame-A form, 7 arguments),
`PositionCost`, `ComInPolyhedronConstraint`, `OrientationConstraint` and
`OrientationCost`, 9 for `AngleBetweenVectorsConstraint`,
`PointToPointDistanceConstraint`, `GazeTargetConstraint` and
`PositionConstraint` (bar-frame form, 8 arguments), for the `double` and the
`AutoDiffXd` overload alike. -/
theorem C1_plant_context_keep_alive :
    (∀ c ∈ inverse_kinematics.classes, ∀ d ∈ c.ctors, "plant_context" ∈ d.argNames →
      (⟨1, d.positionOf "plant_context"⟩ : KeepAlive) ∈ d.keep_alive ∧
      d.contextPatients = [d.positionOf "plant_context"] ∧
      (d.typeAt (d.positionOf "plant_context")).map CppType.isContext = some true ∧
      (∀ k ∈ d.keep_alive, k.nurse = 1)) ∧
    plantContextKeepAlives inverse_kinematics =
      [("InverseKinematics", some .double, 3, [3]),
       ("AngleBetweenVectorsConstraint", some .double, 8, [9]),
       ("AngleBetweenVectorsConstraint", some .AutoDiffXd, 8, [9]),
       ("PointToPointDistanceConstraint", some .double, 8, [9]),
       ("PointToPointDistanceConstraint", some .AutoDiffXd, 8, [9]),
       ("PolyhedronConstraint", some .double, 7, [8]),
       ("PolyhedronConstraint", some .AutoDiffXd, 7, [8]),
       ("DistanceConstraint", some .double, 5, [4]),
       ("DistanceConstraint", some .AutoDiffXd, 5, [4]),
       ("GazeTargetConstraint", some .double, 8, [9]),
       ("GazeTargetConstraint", some .AutoDiffXd, 8, [9]),
       ("MinimumDistanceConstraint", some .double, 5, [4]),
       ("MinimumDistanceConstraint", some .AutoDiffXd, 5, [4]),
       ("PositionConstraint", some .double, 7, [8]),
       ("PositionConstraint", some .double, 8, [9]),
       ("PositionConstraint", some .AutoDiffXd, 7, [8]),
       ("PositionConstraint", some .AutoDiffXd, 8, [9]),
       ("PositionCost", some .double, 7, [8]),
       ("PositionCost", some .AutoDiffXd, 7, [8]),
       ("ComPositionConstraint", some .double, 4, [5]),
       ("ComPositionConstraint", some .AutoDiffXd, 4, [5]),
       ("ComInPolyhedronConstraint", some .double, 7, [8]),
       ("ComInPolyhedronConstraint", some .AutoDiffXd, 7, [8]),
       ("OrientationConstraint", some .double, 7, [8]),
       ("OrientationConstraint", some .AutoDiffXd, 7, [8]),
       ("OrientationCost", some .double, 7, [8]),
       ("OrientationCost", some .AutoDiffXd, 7, [8])] := by
  refine ⟨by decide, by decide⟩

/-- C2: a constructor binding declares `keep_alive<1, 2>` if and only if it
takes a plant, and then the plant is its first argument, named `plant`. The
classes with such a constructor are `InverseKinematics` (both constructors),
`GlobalInverseKinematics` and the twelve plant-dependent constraint and cost
classes; the only constructors without a plant are those of
`UnitQuaternionConstraint` and `Options`, which take no argument and declare
no keep-alive. -/
theorem C2_plant_keep_alive :
    (∀ c ∈ inverse_kinematics.classes, ∀ d ∈ c.ctors,
      ((⟨1, 2⟩ : KeepAlive) ∈ d.keep_alive ↔ d.takesPlant = true) ∧
      ("plant" ∈ d.argNames ↔ d.takesPlant = true) ∧
      (d.takesPlant = true →
        d.argNames.head? = some "plant" ∧
        (d.typeAt 2).map CppType.isPlant = some true ∧
        (d.impl.paramTypes.filter CppType.isPlant).length = 1)) ∧
    plantClasses inverse_kinematics =
      ["InverseKinematics", "AngleBetweenVectorsConstraint",
       "PointToPointDistanceConstraint", "PolyhedronConstraint", "DistanceConstraint",
       "GazeTargetConstraint", "MinimumDistanceConstraint", "PositionConstraint",
       "PositionCost", "ComPositionConstraint", "ComInPolyhedronConstraint",
       "OrientationConstraint", "OrientationCost", "GlobalInverseKinematics"] ∧
    (InverseKinematics_class.ctors.map Def.takesPlant = [true, true]) ∧
    plantFreeCtors inverse_kinematics =
      [("UnitQuaternionConstraint", [], []), ("Options", [], [])] := by
  refine ⟨by decide, by decide, by decide, by decide⟩

/-- C3: every constructor of a constraint or cost class that takes a plant
has exactly one `plant_context` argument, which is its only `Context<T>*`
parameter, and the plant, every frame parameter and the context of that
overload have one and the same scalar type. -/
theorem C3_one_context_same_scalar (c : PyClass)
    (hc : c ∈ inverse_kinematics.constraintAndCostClasses) (d : Def) (hd : d ∈ c.ctors)
    (hp : d.takesPlant = true) :
    d.argNames.count "plant_context" = 1 ∧
    (d.impl.paramTypes.filter CppType.isContext).length = 1 ∧
    (d.typeAt (d.positionOf "plant_context")).map CppType.isContext = some true ∧
    d.plantScalar ≠ none ∧
    ∀ t ∈ d.impl.paramTypes, (t.isPlant || t.isFrame || t.isContext) = true →
      t.kinematicScalar = d.plantScalar := by
  have key : ∀ c ∈ inverse_kinematics.constraintAndCostClasses, ∀ d ∈ c.ctors,
      d.takesPlant = true →
      d.argNames.count "plant_context" = 1 ∧
      (d.impl.paramTypes.filter CppType.isContext).length = 1 ∧
      (d.typeAt (d.positionOf "plant_context")).map CppType.isContext = some true ∧
      d.plantScalar ≠ none ∧
      ∀ t ∈ d.impl.paramTypes, (t.isPlant || t.isFrame || t.isContext) = true →
        t.kinematicScalar = d.plantScalar := by decide
  exact key c hc d hd hp

/-- Witness for C3: the `AutoDiffXd` bar-frame constructor of
`PositionConstraint` is a plant-taking constructor of a constraint class, and
its plant, its two frames and its context are all `AutoDiffXd`. -/
theorem C3_one_context_same_scalar_witness :
    ∃ c ∈ inverse_kinematics.constraintAndCostClasses, ∃ d ∈ c.ctors,
      c.name = "PositionConstraint" ∧ d.doc = "cls_doc.ctor.doc_autodiff_Abar" ∧
      d.takesPlant = true ∧
      d.argNames.count "plant_context" = 1 ∧
      d.plantScalar = some .AutoDiffXd ∧
      ∀ t ∈ d.impl.paramTypes, (t.isPlant || t.isFrame || t.isContext) = true →
        t.kinematicScalar = d.plantScalar :=
  ⟨PositionConstraint_class, by decide, PositionConstraint_class.defs.get ⟨3, by decide⟩,
    by decide, by decide, by decide, by decide,
    (C3_one_context_same_scalar PositionConstraint_class (by decide)
      (PositionConstraint_class.defs.get ⟨3, by decide⟩) (by decide) (by decide)).1,
    by decide,
    (C3_one_context_same_scalar PositionConstraint_class (by decide)
      (PositionConstraint_class.defs.get ⟨3, by decide⟩) (by decide) (by decide)).2.2.2.2⟩


/-- C4, as stated, fails: a bar-frame call that names `frameAbar` and leaves
out `X_AbarA` is rejected by every overload of
`InverseKinematics.AddPositionConstraint` and by every constructor of
`PositionConstraint`. -/
theorem C4_counterexample :
    InverseKinematics_class.call (fun _ => (0 : Nat)) "AddPositionConstraint" []
      [("frameB", 1), ("p_BQ", 2), ("frameAbar", 3), ("p_AQ_lower", 4), ("p_AQ_upper", 5)]
      = [] ∧
    PositionConstraint_class.call (fun _ => (0 : Nat)) "__init__" []
      [("plant", 1), ("frameAbar", 2), ("p_AQ_lower", 3), ("p_AQ_upper", 4),
       ("frameB", 5), ("p_BQ", 6), ("plant_context", 7)] = [] := by
  refine ⟨by decide, by decide⟩

/-- C4, amended: in the three bar-frame bindings of the position constraint
(`InverseKinematics.AddPositionConstraint` with `frameAbar` and both scalar
overloads of the `PositionConstraint` constructor with `frameAbar`) the
argument `X_AbarA` is declared without a default and has the type
`std::optional<math::RigidTransformd>`: every call the binding accepts
supplies `X_AbarA`, positionally or by keyword, and the wrapper passes the
supplied value on unchanged, in the position the native operation expects. -/
theorem C4_X_AbarA_required_and_forwarded :
    (barFrameBindings inverse_kinematics).map (fun e => (e.1, e.2.name, e.2.doc)) =
      [("InverseKinematics", "AddPositionConstraint", "cls_doc.AddPositionConstraint.doc_6args"),
       ("PositionConstraint", "__init__", "cls_doc.ctor.doc_double_Abar"),
       ("PositionConstraint", "__init__", "cls_doc.ctor.doc_autodiff_Abar")] ∧
    (∀ e ∈ barFrameBindings inverse_kinematics,
      (e.2.args.filter fun a => a.name == "X_AbarA") = [arg "X_AbarA"] ∧
      e.2.typeAt (e.2.positionOf "X_AbarA") = some .OptionalRigidTransformdRef ∧
      ∀ (V : Type) (ev : DefaultExpr → V) (pos : List V) (kw : List (String × V))
        (call : NativeCall V), e.2.invoke ev pos kw = some call →
        e.2.argNames.indexOf "X_AbarA" < pos.length ∨ "X_AbarA" ∈ kw.map Prod.fst) ∧
    (∀ (V : Type) (ev : DefaultExpr → V) (frameB p_BQ frameAbar X_AbarA lower upper : V),
      InverseKinematics_class.call ev "AddPositionConstraint"
        [frameB, p_BQ, frameAbar, X_AbarA, lower, upper] [] =
        [⟨"AddPositionConstraint", [frameB, p_BQ, frameAbar, X_AbarA, lower, upper]⟩] ∧
      InverseKinematics_class.call ev "AddPositionConstraint" [frameB, p_BQ]
        [("frameAbar", frameAbar), ("p_AQ_lower", lower), ("p_AQ_upper", upper),
         ("X_AbarA", X_AbarA)] =
        [⟨"AddPositionConstraint", [frameB, p_BQ, frameAbar, X_AbarA, lower, upper]⟩]) ∧
    (∀ (V : Type) (ev : DefaultExpr → V)
      (plant frameAbar X_AbarA lower upper frameB p_BQ context : V),
      PositionConstraint_class.call ev "__init__"
        [plant, frameAbar, X_AbarA, lower, upper, frameB, p_BQ, context] [] =
        [⟨"Class", [plant, frameAbar, X_AbarA, lower, upper, frameB, p_BQ, context]⟩,
         ⟨"Class", [plant, frameAbar, X_AbarA, lower, upper, frameB, p_BQ, context]⟩]) := by
  refine ⟨by decide, ?_, ?_, ?_⟩
  · intro e he
    have key : ∀ e ∈ barFrameBindings inverse_kinematics,
        (e.2.args.filter fun a => a.name == "X_AbarA") = [arg "X_AbarA"] ∧
        e.2.typeAt (e.2.positionOf "X_AbarA") = some .OptionalRigidTransformdRef ∧
        "X_AbarA" ∈ e.2.argNames ∧
        ∀ a ∈ e.2.args, a.name = "X_AbarA" → a.default = none := by decide
    obtain ⟨h1, h2, h3, h4⟩ := key e he
    exact ⟨h1, h2, fun V ev pos kw call h => invoke_supplies ev e.2 "X_AbarA" h3 h4 pos kw call h⟩
  · intro V ev frameB p_BQ frameAbar X_AbarA lower upper
    exact ⟨rfl, rfl⟩
  · intro V ev plant frameAbar X_AbarA lower upper frameB p_BQ context
    rfl

/-- C5: for all argument values, calling
`GlobalInverseKinematics.AddWorldPositionConstraint` or
`AddWorldRelativePositionConstraint` without `X_WF` makes the same native call
as calling it with `X_WF` equal to the default-constructed
`math::RigidTransformd()`, positionally or by keyword; `X_WF` is the only
argument of the two methods with a default, and every call they accept
supplies each of the other arguments. -/
theorem C5_X_WF_defaults_to_identity :
    (∀ (V : Type) (ev : DefaultExpr → V) (body_index p_BQ box_lb_F box_ub_F : V),
      GlobalInverseKinematics_class.call ev "AddWorldPositionConstraint"
        [body_index, p_BQ, box_lb_F, box_ub_F] [] =
      GlobalInverseKinematics_class.call ev "AddWorldPositionConstraint"
        [body_index, p_BQ, box_lb_F, box_ub_F, ev .RigidTransformd_default] [] ∧
      GlobalInverseKinematics_class.call ev "AddWorldPositionConstraint"
        [body_index, p_BQ, box_lb_F, box_ub_F] [] =
        [⟨"AddWorldPositionConstraint",
          [body_index, p_BQ, box_lb_F, box_ub_F, ev .RigidTransformd_default]⟩] ∧
      GlobalInverseKinematics_class.call ev "AddWorldPositionConstraint" []
        [("body_index", body_index), ("p_BQ", p_BQ), ("box_lb_F", box_lb_F),
         ("box_ub_F", box_ub_F)] =
      GlobalInverseKinematics_class.call ev "AddWorldPositionConstraint" []
        [("body_index", body_index), ("p_BQ", p_BQ), ("box_lb_F", box_lb_F),
         ("box_ub_F", box_ub_F), ("X_WF", ev .RigidTransformd_default)]) ∧
    (∀ (V : Type) (ev : DefaultExpr → V)
      (body_index_B p_BQ body_index_A p_AP box_lb_F box_ub_F : V),
      GlobalInverseKinematics_class.call ev "AddWorldRelativePositionConstraint"
        [body_index_B, p_BQ, body_index_A, p_AP, box_lb_F, box_ub_F] [] =
      GlobalInverseKinematics_class.call ev "AddWorldRelativePositionConstraint"
        [body_index_B, p_BQ, body_index_A, p_AP, box_lb_F, box_ub_F,
         ev .RigidTransformd_default] [] ∧
      GlobalInverseKinematics_class.call ev "AddWorldRelativePositionConstraint"
        [body_index_B, p_BQ, body_index_A, p_AP, box_lb_F, box_ub_F] [] =
        [⟨"AddWorldRelativePositionConstraint",
          [body_index_B, p_BQ, body_index_A, p_AP, box_lb_F, box_ub_F,
           ev .RigidTransformd_default]⟩] ∧
      GlobalInverseKinematics_class.call ev "AddWorldRelativePositionConstraint" []
        [("body_index_B", body_index_B), ("p_BQ", p_BQ), ("body_index_A", body_index_A),
         ("p_AP", p_AP), ("box_lb_F", box_lb_F), ("box_ub_F", box_ub_F)] =
      GlobalInverseKinematics_class.call ev "AddWorldRelativePositionConstraint" []
        [("body_index_B", body_index_B), ("p_BQ", p_BQ), ("body_index_A", body_index_A),
         ("p_AP", p_AP), ("box_lb_F", box_lb_F), ("box_ub_F", box_ub_F),
         ("X_WF", ev .RigidTransformd_default)]) ∧
    (GlobalInverseKinematics_class.overloads "AddWorldPositionConstraint").map (·.args) =
      [[arg "body_index", arg "p_BQ", arg "box_lb_F", arg "box_ub_F",
        arg_eq "X_WF" .RigidTransformd_default]] ∧
    (GlobalInverseKinematics_class.overloads "AddWorldRelativePositionConstraint").map
        (·.args) =
      [[arg "body_index_B", arg "p_BQ", arg "body_index_A", arg "p_AP", arg "box_lb_F",
        arg "box_ub_F", arg_eq "X_WF" .RigidTransformd_default]] ∧
    (∀ name ∈ ["AddWorldPositionConstraint", "AddWorldRelativePositionConstraint"],
      ∀ d ∈ GlobalInverseKinematics_class.overloads name,
      ∀ n ∈ d.argNames, n ≠ "X_WF" →
      ∀ (V : Type) (ev : DefaultExpr → V) (pos : List V) (kw : List (String × V))
        (call : NativeCall V), d.invoke ev pos kw = some call →
        d.argNames.indexOf n < pos.length ∨ n ∈ kw.map Prod.fst) := by
  refine ⟨?_, ?_, by decide, by decide, ?_⟩
  · intro V ev body_index p_BQ box_lb_F box_ub_F
    exact ⟨rfl, rfl, rfl⟩
  · intro V ev body_index_B p_BQ body_index_A p_AP box_lb_F box_ub_F
    exact ⟨rfl, rfl, rfl⟩
  · intro name hname d hd n hn hne V ev pos kw call h
    have key : ∀ name ∈ ["AddWorldPositionConstraint", "AddWorldRelativePositionConstraint"],
        ∀ d ∈ GlobalInverseKinematics_class.overloads name,
        ∀ a ∈ d.args, a.name ≠ "X_WF" → a.default = none := by decide
    exact invoke_supplies ev d n hn
      (fun a ha han => key name hname d hd a ha (han ▸ hne)) pos kw call h

/-- C6: `InverseKinematics` is registered once and has exactly two
constructor overloads, `(plant, with_joint_limits)` and
`(plant, plant_context, with_joint_limits)`; in both `with_joint_limits`
has the default `true`, so a call that omits it passes `true` to the native
constructor and a call that gives it passes the given value. -/
theorem C6_InverseKinematics_constructors :
    inverse_kinematics.classes.filter (fun c => c.name == "InverseKinematics") =
      [InverseKinematics_class] ∧
    InverseKinematics_class.ctors.map (fun d => (d.impl, d.args)) =
      [(.init [.MultibodyPlantRef .double, .bool],
        [arg "plant", arg_eq "with_joint_limits" .true_]),
       (.init [.MultibodyPlantRef .double, .ContextPtr .double, .bool],
        [arg "plant", arg "plant_context", arg_eq "with_joint_limits" .true_])] ∧
    (∀ (V : Type) (ev : DefaultExpr → V) (plant plant_context flag : V),
      InverseKinematics_class.call ev "__init__" [plant] [] =
        [⟨"Class", [plant, ev .true_]⟩] ∧
      InverseKinematics_class.call ev "__init__" [plant] [("with_joint_limits", flag)] =
        [⟨"Class", [plant, flag]⟩] ∧
      InverseKinematics_class.call ev "__init__" [plant] [("plant_context", plant_context)] =
        [⟨"Class", [plant, plant_context, ev .true_]⟩] ∧
      InverseKinematics_class.call ev "__init__" [plant]
        [("plant_context", plant_context), ("with_joint_limits", flag)] =
        [⟨"Class", [plant, plant_context, flag]⟩]) := by
  refine ⟨by decide, by decide, ?_⟩
  intro V ev plant plant_context flag
  exact ⟨rfl, rfl, rfl, rfl⟩

/-- C7: among the constraint and cost classes of the module,
`PositionConstraint` binds exactly the three methods `set_bounds(new_lb,
new_ub)`, `UpdateLowerBound(new_lb)` and `UpdateUpperBound(new_ub)`, and every
other constraint class and every cost class binds nothing besides its
constructors. -/
theorem C7_bound_mutation_only_on_PositionConstraint :
    PositionConstraint_class ∈ inverse_kinematics.constraintAndCostClasses ∧
    PositionConstraint_class.methods.map (fun d => (d.name, d.impl, d.argNames)) =
      [("set_bounds", .member "set_bounds", ["new_lb", "new_ub"]),
       ("UpdateLowerBound", .member "UpdateLowerBound", ["new_lb"]),
       ("UpdateUpperBound", .member "UpdateUpperBound", ["new_ub"])] ∧
    (∀ c ∈ inverse_kinematics.constraintAndCostClasses, c.name ≠ "PositionConstraint" →
      c.methods = [] ∧ c.readwrite = [] ∧
      ∀ n ∈ ["set_bounds", "UpdateLowerBound", "UpdateUpperBound"], c.overloads n = []) ∧
    (inverse_kinematics.constraintAndCostClasses.filter
      fun c => c.name == "PositionConstraint") = [PositionConstraint_class] ∧
    PositionConstraint_class.readwrite = [] := by
  refine ⟨by decide, by decide, by decide, by decide, by decide⟩

/-- C8: the module registers exactly eleven classes with base
`solvers::Constraint`, the eleven constraint types the spec lists, and exactly
two classes with base `solvers::Cost`, `PositionCost` and `OrientationCost`;
no class name is registered twice. -/
theorem C8_registered_classes :
    inverse_kinematics.classesWithBase .Constraint =
      ["AngleBetweenVectorsConstraint", "PointToPointDistanceConstraint",
       "PolyhedronConstraint", "DistanceConstraint", "GazeTargetConstraint",
       "MinimumDistanceConstraint", "PositionConstraint", "ComPositionConstraint",
       "ComInPolyhedronConstraint", "OrientationConstraint",
       "UnitQuaternionConstraint"] ∧
    (inverse_kinematics.classesWithBase .Constraint).length = 11 ∧
    (∀ n ∈ ["PositionConstraint", "OrientationConstraint", "AngleBetweenVectorsConstraint",
        "GazeTargetConstraint", "MinimumDistanceConstraint",
        "PointToPointDistanceConstraint", "DistanceConstraint", "PolyhedronConstraint",
        "ComPositionConstraint", "ComInPolyhedronConstraint", "UnitQuaternionConstraint"],
      n ∈ inverse_kinematics.classesWithBase .Constraint) ∧
    inverse_kinematics.classesWithBase .Cost = ["PositionCost", "OrientationCost"] ∧
    (inverse_kinematics.classes.map (·.name)).Nodup ∧
    (inverse_kinematics.classes.filter fun c => c.base == none).map (·.name) =
      ["InverseKinematics", "GlobalInverseKinematics", "Options"] := by
  refine ⟨by decide, by decide, by decide, by decide, by decide, by decide⟩

/-- C9: in every constraint and cost class, each constructor shape (list of
argument names) of the plant-taking constructors is bound exactly twice, first
for `double` and then for `AutoDiffXd`, and the two overloads have the same
`py::arg` list (names, order, defaults) and the same keep-alives;
`PositionConstraint` has two shapes and four overloads, every other
plant-dependent class one shape and two overloads; and
`AddUnitQuaternionConstraintOnPlant` is bound for `double` and for
`AutoDiffXd` with the arguments `(plant, q_vars, prog)`. -/
theorem C9_both_scalar_modes :
    (∀ c ∈ inverse_kinematics.constraintAndCostClasses, ∀ shape ∈ c.shapes,
      (c.ctorsOfShape shape).map Def.plantScalar = [some .double, some .AutoDiffXd] ∧
      ∀ d ∈ c.ctorsOfShape shape, ∀ e ∈ c.ctorsOfShape shape,
        d.args = e.args ∧ d.keep_alive = e.keep_alive ∧
        d.impl.paramNames = e.impl.paramNames) ∧
    shapeCounts inverse_kinematics =
      [("AngleBetweenVectorsConstraint", 1, 2), ("PointToPointDistanceConstraint", 1, 2),
       ("PolyhedronConstraint", 1, 2), ("DistanceConstraint", 1, 2),
       ("GazeTargetConstraint", 1, 2), ("MinimumDistanceConstraint", 1, 2),
       ("PositionConstraint", 2, 4), ("PositionCost", 1, 2),
       ("ComPositionConstraint", 1, 2), ("ComInPolyhedronConstraint", 1, 2),
       ("OrientationConstraint", 1, 2), ("OrientationCost", 1, 2),
       ("UnitQuaternionConstraint", 0, 0)] ∧
    inverse_kinematics.functions.map (fun d => (d.name, d.impl, d.args)) =
      [("AddUnitQuaternionConstraintOnPlant",
        .function "AddUnitQuaternionConstraintOnPlant" .double,
        [arg "plant", arg "q_vars", arg "prog"]),
       ("AddUnitQuaternionConstraintOnPlant",
        .function "AddUnitQuaternionConstraintOnPlant" .AutoDiffXd,
        [arg "plant", arg "q_vars", arg "prog"])] := by
  refine ⟨by decide, by decide, by decide⟩

/-- C10: `GlobalInverseKinematics.Options` is default-constructible
(`py::init<>()` without arguments) and has exactly four read-write fields,
`num_intervals_per_half_axis`, `approach`, `interval_binning` and
`linear_constraint_only`; each field can be read, a value of its type can be
written to it, and after a write of `v` the field reads `v` and every other
attribute reads as before. -/
theorem C10_Options_read_write :
    Options_class.ctors.map (fun d => (d.impl, d.args)) = [(.init [], [])] ∧
    Options_class.readwrite.map (·.name) =
      ["num_intervals_per_half_axis", "approach", "interval_binning",
       "linear_constraint_only"] ∧
    Options_class.readwrite.map (fun rw => OptionsMember.ofName rw.member) =
      [some .num_intervals_per_half_axis, some .approach, some .interval_binning,
       some .linear_constraint_only] ∧
    (∀ (A B : Type) (o : Options A B),
      getattr Options_class o "num_intervals_per_half_axis" =
        some (.int o.num_intervals_per_half_axis) ∧
      getattr Options_class o "approach" = some (.approach o.approach) ∧
      getattr Options_class o "interval_binning" =
        some (.interval_binning o.interval_binning) ∧
      getattr Options_class o "linear_constraint_only" =
        some (.bool o.linear_constraint_only)) ∧
    (∀ (A B : Type) (o : Options A B) (i : Int) (a : A) (b : B) (f : Bool),
      (fitsInt i = true →
        setattr Options_class o "num_intervals_per_half_axis" (.int i) =
          some { o with num_intervals_per_half_axis := i }) ∧
      setattr Options_class o "approach" (.approach a) = some { o with approach := a } ∧
      setattr Options_class o "interval_binning" (.interval_binning b) =
        some { o with interval_binning := b } ∧
      setattr Options_class o "linear_constraint_only" (.bool f) =
        some { o with linear_constraint_only := f }) ∧
    (∀ (A B : Type) (o o' : Options A B) (name : String) (v : MemberValue A B),
      setattr Options_class o name v = some o' →
      getattr Options_class o' name = some v ∧
      ∀ name', name' ≠ name →
        getattr Options_class o' name' = getattr Options_class o name') := by
  refine ⟨by decide, by decide, by decide, ?_, ?_, ?_⟩
  · intro A B o
    exact ⟨rfl, rfl, rfl, rfl⟩
  · intro A B o i a b f
    refine ⟨?_, rfl, rfl, rfl⟩
    intro hi
    have e : setattr Options_class o "num_intervals_per_half_axis" (.int i) =
        if fitsInt i = true then some { o with num_intervals_per_half_axis := i }
        else none := rfl
    rw [e, if_pos hi]
  · intro A B o o' name v h
    exact setattr_getattr o o' name v h

/-! ## Lemmas about sequences of writes and about forwarding -/

/-- A successful attribute write either leaves the integer field as it was
or stores the written integer, which fits a C++ `int`. -/
theorem setattr_num_intervals {A B : Type} (o o' : Options A B) (name : String)
    (v : MemberValue A B) (h : setattr Options_class o name v = some o') :
    o'.num_intervals_per_half_axis = o.num_intervals_per_half_axis ∨
    (name = "num_intervals_per_half_axis" ∧ v = .int o'.num_intervals_per_half_axis ∧
      fitsInt o'.num_intervals_per_half_axis = true) := by
  unfold setattr at h
  rw [Options_member_eq] at h
  cases hm : OptionsMember.ofName name with
  | none => rw [hm] at h; cases h
  | some m =>
    rw [hm] at h
    simp only [Option.bind] at h
    cases m <;> cases v <;> simp only [Options.write] at h <;> (try split_ifs at h) <;>
      (try cases h) <;> first
      | done
      | (left; rfl)
      | (right
         rename_i hfit
         refine ⟨?_, rfl, hfit⟩
         unfold OptionsMember.ofName at hm
         split_ifs at hm <;> first
           | assumption
           | cases hm)

/-- After any sequence of writes the integer field holds the value it had
before or an integer that was written to it, and it fits a C++ `int` when it
did before. -/
theorem writeAll_num_intervals {A B : Type} (ws : List (String × MemberValue A B)) :
    ∀ o : Options A B,
      ((writeAll Options_class o ws).num_intervals_per_half_axis =
          o.num_intervals_per_half_axis ∨
        ("num_intervals_per_half_axis",
          MemberValue.int (writeAll Options_class o ws).num_intervals_per_half_axis) ∈ ws) ∧
      (fitsInt o.num_intervals_per_half_axis = true →
        fitsInt (writeAll Options_class o ws).num_intervals_per_half_axis = true) := by
  induction ws with
  | nil => intro o; exact ⟨Or.inl rfl, fun h => h⟩
  | cons w rest ih =>
    intro o
    have step : writeAll Options_class o (w :: rest) =
        writeAll Options_class ((setattr Options_class o w.1 w.2).getD o) rest := rfl
    rw [step]
    obtain ⟨h1, h2⟩ := ih ((setattr Options_class o w.1 w.2).getD o)
    cases hs : setattr Options_class o w.1 w.2 with
    | none =>
      rw [hs] at h1 h2
      simp only [Option.getD] at h1 h2
      refine ⟨?_, h2⟩
      rcases h1 with h1 | h1
      · exact Or.inl h1
      · exact Or.inr (List.mem_cons_of_mem _ h1)
    | some o' =>
      rw [hs] at h1 h2
      simp only [Option.getD] at h1 h2 ⊢
      have hw := setattr_num_intervals o o' w.1 w.2 hs
      refine ⟨?_, ?_⟩
      · rcases h1 with h1 | h1
        · rcases hw with hw | ⟨hn, hv, _⟩
          · exact Or.inl (h1.trans hw)
          · right
            rw [h1]
            have : w = ("num_intervals_per_half_axis",
                MemberValue.int o'.num_intervals_per_half_axis) := by
              obtain ⟨w1, w2⟩ := w
              simp only at hn hv
              rw [hn, hv]
            rw [this]
            exact List.mem_cons_self _ _
        · exact Or.inr (List.mem_cons_of_mem _ h1)
      · intro hfit
        apply h2
        rcases hw with hw | ⟨_, _, hf⟩
        · rw [hw]; exact hfit
        · exact hf

/-- Writes after which one more write is made: the last write is applied to
the result of the earlier ones. -/
theorem writeAll_append {A B : Type} (c : PyClass) (o : Options A B)
    (ws : List (String × MemberValue A B)) (w : String × MemberValue A B) :
    writeAll c o (ws ++ [w]) = (setattr c (writeAll c o ws) w.1 w.2).getD (writeAll c o ws) := by
  unfold writeAll
  rw [List.foldl_append]
  rfl

/-- Looking up a name that is not a key of the tail skips the head entry of
another name. -/
theorem lookup_zip_of_not_mem {V : Type} (n : String) :
    ∀ (names : List String) (vals : List V), n ∉ names → (names.zip vals).lookup n = none := by
  intro names
  induction names with
  | nil => intro vals _; rfl
  | cons m rest ih =>
    intro vals hn
    cases vals with
    | nil => rfl
    | cons v vs =>
      have hne : n ≠ m := fun e => hn (e ▸ List.mem_cons_self _ _)
      have hb : (n == m) = false := by simpa using hne
      have hrest : n ∉ rest := fun e => hn (List.mem_cons_of_mem _ e)
      simp only [List.zip_cons_cons, List.lookup, hb]
      exact ih vs hrest

/-- Evaluating a list of names that are all bound consistently gives the
values they are bound to. -/
theorem mapM_lookup_zip {V : Type} :
    ∀ (names : List String) (vals : List V) (env : List (String × V)),
      names.Nodup → vals.length = names.length →
      (∀ n ∈ names, env.lookup n = (names.zip vals).lookup n) →
      names.mapM (fun n => env.lookup n) = some vals := by
  intro names
  induction names with
  | nil =>
    intro vals env _ hl _
    cases vals with
    | nil => rfl
    | cons v vs => simp at hl
  | cons m rest ih =>
    intro vals env hnd hl henv
    cases vals with
    | nil => simp at hl
    | cons v vs =>
      have hm : env.lookup m = some v := by
        rw [henv m (List.mem_cons_self _ _)]
        simp [List.lookup]
      have hrest : rest.mapM (fun n => env.lookup n) = some vs := by
        apply ih vs env (List.nodup_cons.mp hnd).2 (by simpa using hl)
        intro n hn
        rw [henv n (List.mem_cons_of_mem _ hn)]
        have hne : n ≠ m := fun e => (List.nodup_cons.mp hnd).1 (e ▸ hn)
        have hb : (n == m) = false := by simpa using hne
        simp only [List.zip_cons_cons, List.lookup, hb]
        rfl
      simp only [List.mapM_cons, hm, hrest]
      rfl

/-- A lambda body that names its own parameters, each once and in order,
passes the values on unchanged. -/
theorem forwardArgs_self {V : Type} (params : List String) (vals : List V)
    (hnd : params.Nodup) (hl : vals.length = params.length) :
    forwardArgs params vals params = some vals := by
  unfold forwardArgs
  exact mapM_lookup_zip params vals (params.zip vals) hnd hl (fun _ _ => rfl)

/-- Removing a name that is not a key leaves the keywords as they are. -/
theorem filter_zip_of_not_mem {V : Type} (n : String) :
    ∀ (names : List String) (vals : List V), n ∉ names →
      (names.zip vals).filter (fun e => e.1 != n) = names.zip vals := by
  intro names
  induction names with
  | nil => intro vals _; rfl
  | cons m rest ih =>
    intro vals hn
    cases vals with
    | nil => rfl
    | cons v vs =>
      have hne : m ≠ n := fun e => hn (e ▸ List.mem_cons_self _ _)
      have hrest : n ∉ rest := fun e => hn (List.mem_cons_of_mem _ e)
      have hb : (m != n) = true := by simpa using hne
      simp only [List.zip_cons_cons, List.filter, hb]
      exact congrArg _ (ih vs hrest)

/-- A keyword for every slot, under the slot's name, fills all slots with
the keyword values and leaves no keyword over. -/
theorem fillSlots_keywords {V : Type} (ev : DefaultExpr → V) :
    ∀ (sig : List PyArg) (vals : List V), (sig.map (·.name)).Nodup →
      vals.length = sig.length →
      fillSlots ev sig ((sig.map (·.name)).zip vals) = some (vals, []) := by
  intro sig
  induction sig with
  | nil =>
    intro vals _ hl
    cases vals with
    | nil => rfl
    | cons v vs => simp at hl
  | cons a rest ih =>
    intro vals hnd hl
    cases vals with
    | nil => simp at hl
    | cons v vs =>
      have hnd' := List.nodup_cons.mp hnd
      have hlook : ((a.name, v) :: (rest.map (·.name)).zip vs).lookup a.name = some v := by
        simp [List.lookup]
      have hfilter : ((a.name, v) :: (rest.map (·.name)).zip vs).filter
          (fun e => e.1 != a.name) = (rest.map (·.name)).zip vs := by
        have hb : (a.name != a.name) = false := by simp
        simp only [List.filter, hb]
        exact filter_zip_of_not_mem a.name _ vs hnd'.1
      have hrec := ih vs hnd'.2 (by simpa using hl)
      simp only [List.map_cons, List.zip_cons_cons]
      unfold fillSlots
      rw [hlook]
      simp only [hfilter, hrec, Option.map_some']

/-- A call that gives every argument by keyword, under its name, loads the
keyword values in the order of the `py::arg` list. -/
theorem loadArgs_keywords {V : Type} (ev : DefaultExpr → V) (sig : List PyArg)
    (vals : List V) (hnd : (sig.map (·.name)).Nodup) (hl : vals.length = sig.length) :
    loadArgs ev sig [] ((sig.map (·.name)).zip vals) = some vals := by
  unfold loadArgs
  simp only [List.length_nil, Nat.not_lt_zero, ↓reduceIte, List.take_zero, List.any_nil,
    List.drop_zero, Bool.false_eq_true]
  rw [fillSlots_keywords ev sig vals hnd hl]
  rfl

/-- A lambda wrapper whose body names its own parameters, each once and in
order, passes the loaded values on unchanged to the operation it calls. -/
theorem forward_wrapper {V : Type} (impl : Impl) (vals : List V) (k : String)
    (hk : impl.callee = some k) (hargs : impl.callArgs = impl.paramNames)
    (hnd : impl.paramNames.Nodup) (hl : vals.length = impl.paramNames.length) :
    impl.forward vals = some ⟨k, vals⟩ := by
  cases impl with
  | init_lambda ps mk as =>
    simp only [Impl.callArgs, Impl.paramNames] at hargs hnd hl
    simp only [Impl.callee, Option.some.injEq] at hk
    subst hargs
    subst hk
    simp only [Impl.forward, forwardArgs_self _ vals hnd hl, Option.map_some']
  | lambda ps callee as =>
    simp only [Impl.callArgs, Impl.paramNames] at hargs hnd hl
    simp only [Impl.callee, Option.some.injEq] at hk
    subst hargs
    subst hk
    simp only [Impl.forward, forwardArgs_self _ vals hnd hl, Option.map_some']
  | init ts => simp [Impl.callee] at hk
  | member n => simp [Impl.callee] at hk
  | function n T => simp [Impl.callee] at hk
  | repr_format f fs => simp [Impl.callee] at hk

/-! ## Lemmas about conversion and native validation -/

/-- An angle is in range exactly when it lies between 0 and the bound. -/
theorem angleInRange_iff (pi θ : ℚ) : angleInRange pi θ = true ↔ 0 ≤ θ ∧ θ ≤ pi := by
  simp [angleInRange]

/-- The validation of the single classes never reports a context mismatch. -/
theorem checkArguments_ne_mismatch (pi : ℚ) (cls : String) (args : List PyValue) :
    checkArguments pi cls args ≠ .error .plant_context_mismatch := by
  unfold checkArguments
  split_ifs <;> (try split) <;> (try split_ifs) <;> simp

/-- The arguments convert only when each of them converts. -/
theorem convertArgs_none_of_get :
    ∀ (ts : List CppType) (vs : List PyValue) (i : Nat) (t : CppType) (v : PyValue),
      ts.get? i = some t → vs.get? i = some v → t.convert v = none →
      convertArgs ts vs = none := by
  intro ts
  induction ts with
  | nil => intro vs i t v h; simp at h
  | cons t0 ts ih =>
    intro vs i t v ht hv hc
    cases vs with
    | nil => simp at hv
    | cons v0 vs =>
      cases i with
      | zero =>
        simp only [List.get?_cons_zero, Option.some.injEq] at ht hv
        subst ht
        subst hv
        simp only [convertArgs, hc]
      | succ j =>
        simp only [List.get?_cons_succ] at ht hv
        have := ih vs j t v ht hv hc
        simp only [convertArgs, this]
        cases t0.convert v0 <;> rfl

/-- Converted arguments are as many as the parameter types, and each is the
conversion of the value at its position. -/
theorem convertArgs_get :
    ∀ (ts : List CppType) (vs cs : List PyValue), convertArgs ts vs = some cs →
      cs.length = ts.length ∧
      ∀ (i : Nat) (t : CppType) (v : PyValue), ts.get? i = some t → vs.get? i = some v →
        t.convert v = cs.get? i := by
  intro ts
  induction ts with
  | nil =>
    intro vs cs h
    cases vs with
    | nil =>
      simp only [convertArgs, Option.some.injEq] at h
      subst h
      exact ⟨rfl, fun i t v ht => by simp at ht⟩
    | cons v vs => simp [convertArgs] at h
  | cons t0 ts ih =>
    intro vs cs h
    cases vs with
    | nil => simp [convertArgs] at h
    | cons v0 vs =>
      simp only [convertArgs] at h
      cases hc : t0.convert v0 with
      | none => rw [hc] at h; simp at h
      | some c0 =>
        cases hr : convertArgs ts vs with
        | none => rw [hc, hr] at h; simp at h
        | some cs' =>
          rw [hc, hr] at h
          simp only [Option.some.injEq] at h
          subst h
          obtain ⟨hlen, hget⟩ := ih vs cs' hr
          refine ⟨by simp [hlen], ?_⟩
          intro i t v ht hv
          cases i with
          | zero =>
            simp only [List.get?_cons_zero, Option.some.injEq] at ht hv
            subst ht
            subst hv
            simpa using hc
          | succ j =>
            simp only [List.get?_cons_succ] at ht hv ⊢
            exact hget j t v ht hv

/-- An entry with a written parameter has a written signature. -/
theorem signature_of_paramTypes (impl : Impl) (i : Nat) (t : CppType)
    (h : impl.paramTypes.get? i = some t) : impl.signature = some impl.paramTypes := by
  cases impl <;> first
    | rfl
    | simp [Impl.paramTypes] at h

/-- A one-dimensional array converts to a fixed-size 3-vector exactly when
its length is 3. -/
theorem convert_Vector3d (n : Nat) :
    (CppType.EigenRef .Vector3d).convert (.array [n]) =
      if n = 3 then some (.array [3, 1]) else none := by
  by_cases h : n = 3
  · subst h; rfl
  · have hb : (3 == n) = false := by simpa using fun e : 3 = n => h e.symm
    simp [CppType.convert, EigenType.conform, EigenType.dims, conformable, h, hb]

/-- A two-dimensional array converts to a fixed-size 3-by-3 matrix exactly
when it has 3 rows and 3 columns. -/
theorem convert_Matrix3d (r c : Nat) :
    (CppType.EigenRef .Matrix3d).convert (.array [r, c]) =
      if r = 3 ∧ c = 3 then some (.array [3, 3]) else none := by
  by_cases h : r = 3 ∧ c = 3
  · obtain ⟨hr, hc⟩ := h
    subst hr
    subst hc
    rfl
  · have hb : ((3 == r) && (3 == c)) = false := by
      rw [Bool.and_eq_false_iff]
      by_cases hr : r = 3
      · right
        simpa using fun e : 3 = c => h ⟨hr, e.symm⟩
      · left
        simpa using fun e : 3 = r => hr e.symm
    simp [CppType.convert, EigenType.conform, EigenType.dims, conformable, h, hb]

/-- A plant converts to a plant pointer of its own scalar type only, and
unchanged. -/
theorem convert_plant (Td T : Scalar) (p : Nat) (c : PyValue)
    (h : (CppType.MultibodyPlantPtr Td).convert (.plant T p) = some c) :
    Td = T ∧ c = .plant T p := by
  by_cases hT : Td = T
  · subst hT
    simp only [CppType.convert, or_true, ↓reduceIte, Option.some.injEq, reduceCtorEq,
      false_or] at h
    exact ⟨rfl, h.symm⟩
  · simp [CppType.convert, hT] at h

/-- A context converts to a context pointer of its own scalar type only, and
unchanged. -/
theorem convert_context (Td T : Scalar) (p : Nat) (c : PyValue)
    (h : (CppType.ContextPtr Td).convert (.context T p) = some c) :
    Td = T ∧ c = .context T p := by
  by_cases hT : Td = T
  · subst hT
    simp only [CppType.convert, ↓reduceIte, Option.some.injEq] at h
    exact ⟨rfl, h.symm⟩
  · simp [CppType.convert, hT] at h

/-- The native constructor of a plant-dependent class, given a plant first
and a context at the context position, reports a context mismatch exactly
when the context was not created for that plant. -/
theorem nativeConstruct_mismatch_iff (pi : ℚ) (cls : String) (args : List PyValue)
    (T T' : Scalar) (p p' : Nat) (hcls : cls ≠ "UnitQuaternionConstraint")
    (hplant : args.get? 0 = some (.plant T p))
    (hctx : args.get? (contextIndex cls args.length) = some (.context T' p')) :
    nativeConstruct pi cls args = .error .plant_context_mismatch ↔ ¬ (T = T' ∧ p = p') := by
  have hhead : args.head? = some (.plant T p) := by
    cases args with
    | nil => simp at hplant
    | cons a rest => simpa using hplant
  unfold nativeConstruct
  rw [if_neg hcls]
  unfold checkPlantContext
  rw [hhead, hctx]
  by_cases h : T = T' ∧ p = p'
  · obtain ⟨hT, hp⟩ := h
    subst hT
    subst hp
    simp only [beq_self_eq_true, Bool.and_self, ↓reduceIte, and_self, not_true_eq_false,
      iff_false]
    exact checkArguments_ne_mismatch pi cls args
  · have hb : (T == T' && p == p') = false := by
      rw [Bool.and_eq_false_iff]
      by_cases hT : T = T'
      · right
        simpa using fun hp => h ⟨hT, hp⟩
      · left
        simpa using hT
    simp only [hb, Bool.false_eq_true, ↓reduceIte, true_iff]
    exact h

/-! ## The claims, continued -/

/-- C11, as stated, fails: starting from an `Options` value whose
`num_intervals_per_half_axis` is 2, writing 0 to the field is accepted and
leaves 0 in it, and writing -7 leaves -7; neither is at least 1. -/
theorem C11_counterexample :
    (writeAll Options_class (⟨2, (), (), false⟩ : Options Unit Unit)
      [("num_intervals_per_half_axis", .int 0)]).num_intervals_per_half_axis = 0 ∧
    (writeAll Options_class (⟨2, (), (), false⟩ : Options Unit Unit)
      [("linear_constraint_only", .bool true),
       ("num_intervals_per_half_axis", .int (-7))]).num_intervals_per_half_axis = -7 := by
  refine ⟨by decide, by decide⟩

/-- C11, amended: in every `Options` value produced by default construction
followed by a sequence of field writes, `num_intervals_per_half_axis` is the
value of the default-constructed object or an integer that was written to the
field, and it is an integer in the range of a C++ `int`; the binding enforces
no lower bound: every such integer, written last, is the value of the
field. -/
theorem C11_num_intervals_unconstrained :
    (∀ (A B : Type) (default : Options A B) (ws : List (String × MemberValue A B)),
      ((writeAll Options_class default ws).num_intervals_per_half_axis =
          default.num_intervals_per_half_axis ∨
        ("num_intervals_per_half_axis",
          MemberValue.int (writeAll Options_class default ws).num_intervals_per_half_axis)
          ∈ ws) ∧
      (fitsInt default.num_intervals_per_half_axis = true →
        fitsInt (writeAll Options_class default ws).num_intervals_per_half_axis = true)) ∧
    (∀ (A B : Type) (default : Options A B) (ws : List (String × MemberValue A B))
      (i : Int), fitsInt i = true →
      (writeAll Options_class default
        (ws ++ [("num_intervals_per_half_axis", .int i)])).num_intervals_per_half_axis = i) := by
  refine ⟨fun A B default ws => writeAll_num_intervals ws default, ?_⟩
  intro A B default ws i hi
  rw [writeAll_append]
  have e : setattr Options_class (writeAll Options_class default ws)
      "num_intervals_per_half_axis" (.int i) =
      if fitsInt i = true then
        some { writeAll Options_class default ws with num_intervals_per_half_axis := i }
      else none := rfl
  simp only [e, if_pos hi, Option.getD]

/-- C12: besides its constructor and its nested `Options` class,
`GlobalInverseKinematics` binds exactly ten operations, with these names and
argument names, and no read-write field. -/
theorem C12_GlobalInverseKinematics_operations :
    GlobalInverseKinematics_class.methods.map (fun d => (d.name, d.argNames)) =
      [("prog", []),
       ("get_mutable_prog", []),
       ("body_rotation_matrix", ["body_index"]),
       ("body_position", ["body_index"]),
       ("ReconstructGeneralizedPositionSolution", ["result"]),
       ("AddWorldPositionConstraint", ["body_index", "p_BQ", "box_lb_F", "box_ub_F", "X_WF"]),
       ("AddWorldRelativePositionConstraint",
        ["body_index_B", "p_BQ", "body_index_A", "p_AP", "box_lb_F", "box_ub_F", "X_WF"]),
       ("AddWorldOrientationConstraint", ["body_index", "desired_orientation", "angle_tol"]),
       ("AddPostureCost", ["q_desired", "body_position_cost", "body_orientation_cost"]),
       ("SetInitialGuess", ["q"])] ∧
    GlobalInverseKinematics_class.methods.length = 10 ∧
    (GlobalInverseKinematics_class.methods.map (·.name)).Nodup ∧
    GlobalInverseKinematics_class.ctors.length = 1 ∧
    GlobalInverseKinematics_class.defs.length = 11 ∧
    GlobalInverseKinematics_class.readwrite = [] ∧
    (inverse_kinematics.classes.filter fun c => c.scope == "global_ik").map (·.name) =
      ["Options"] ∧
    (inverse_kinematics.classes.filter fun c => c.name == "GlobalInverseKinematics") =
      [GlobalInverseKinematics_class] := by
  refine ⟨by decide, by decide, by decide, by decide, by decide, by decide, by decide,
    by decide⟩

/-- C13 (spec-modelled): constructing an `OrientationConstraint` or an
`AngleBetweenVectorsConstraint` through the binding, for either scalar type,
or adding one through `InverseKinematics.AddOrientationConstraint` or
`AddAngleBetweenVectorsConstraint`, with otherwise valid arguments, succeeds
when `theta_bound`, respectively both `angle_lower` and `angle_upper`, lie in
`[0, π]` and fails at construction with an out-of-range error otherwise: the
binding passes the angles unchanged to the native constructor. -/
theorem C13_angle_bounds_checked_at_construction :
    (∀ (pi θ : ℚ) (T : Scalar) (p : Nat) (R_AbarA R_BbarB : String),
      OrientationConstraint_class.construct pi
        [.plant T p, .frame T, .other R_AbarA, .frame T, .other R_BbarB, .float θ,
         .context T p] [] =
        some (if 0 ≤ θ ∧ θ ≤ pi then .ok () else .error .angle_out_of_range)) ∧
    (∀ (pi lower upper : ℚ) (T : Scalar) (p : Nat),
      AngleBetweenVectorsConstraint_class.construct pi
        [.plant T p, .frame T, .array [3], .frame T, .array [3], .float lower, .float upper,
         .context T p] [] =
        some (if (0 ≤ lower ∧ lower ≤ pi) ∧ (0 ≤ upper ∧ upper ≤ pi) then .ok ()
          else .error .angle_out_of_range)) ∧
    (∀ (pi θ : ℚ) (p : Nat) (R_AbarA R_BbarB : String),
      (⟨.plant .double p, .context .double p⟩ : Session).add pi "AddOrientationConstraint"
        [.frame .double, .other R_AbarA, .frame .double, .other R_BbarB, .float θ] [] =
        some (if 0 ≤ θ ∧ θ ≤ pi then .ok () else .error .angle_out_of_range)) ∧
    (∀ (pi lower upper : ℚ) (p : Nat),
      (⟨.plant .double p, .context .double p⟩ : Session).add pi
        "AddAngleBetweenVectorsConstraint"
        [.frame .double, .array [3], .frame .double, .array [3], .float lower,
         .float upper] [] =
        some (if (0 ≤ lower ∧ lower ≤ pi) ∧ (0 ≤ upper ∧ upper ≤ pi) then .ok ()
          else .error .angle_out_of_range)) := by
  refine ⟨?_, ?_, ?_, ?_⟩
  · intro pi θ T p R_AbarA R_BbarB
    have hn : nativeConstruct pi "OrientationConstraint"
        [.plant T p, .frame T, .other R_AbarA, .frame T, .other R_BbarB, .float θ,
         .context T p] =
        if 0 ≤ θ ∧ θ ≤ pi then .ok () else .error .angle_out_of_range := by
      simp [nativeConstruct, checkPlantContext, contextIndex, checkArguments, angleInRange]
    rw [← hn]
    cases T <;> rfl
  · intro pi lower upper T p
    have hn : nativeConstruct pi "AngleBetweenVectorsConstraint"
        [.plant T p, .frame T, .array [3, 1], .frame T, .array [3, 1], .float lower,
         .float upper, .context T p] =
        if (0 ≤ lower ∧ lower ≤ pi) ∧ (0 ≤ upper ∧ upper ≤ pi) then .ok ()
          else .error .angle_out_of_range := by
      simp [nativeConstruct, checkPlantContext, contextIndex, checkArguments, angleInRange]
    rw [← hn]
    cases T <;> rfl
  · intro pi θ p R_AbarA R_BbarB
    have hn : nativeConstruct pi "OrientationConstraint"
        [.plant .double p, .frame .double, .other R_AbarA, .frame .double, .other R_BbarB,
         .float θ, .context .double p] =
        if 0 ≤ θ ∧ θ ≤ pi then .ok () else .error .angle_out_of_range := by
      simp [nativeConstruct, checkPlantContext, contextIndex, checkArguments, angleInRange]
    rw [← hn]
    rfl
  · intro pi lower upper p
    have hn : nativeConstruct pi "AngleBetweenVectorsConstraint"
        [.plant .double p, .frame .double, .array [3], .frame .double, .array [3],
         .float lower, .float upper, .context .double p] =
        if (0 ≤ lower ∧ lower ≤ pi) ∧ (0 ≤ upper ∧ upper ≤ pi) then .ok ()
          else .error .angle_out_of_range := by
      simp [nativeConstruct, checkPlantContext, contextIndex, checkArguments, angleInRange]
    rw [← hn]
    rfl

/-- C14 (spec-modelled): construction with arrays that do not match the
residual dimension fails and produces no object. A `PolyhedronConstraint`
whose `b` has another length than `A` has rows, and a
`ComInPolyhedronConstraint` whose `lb` or `ub` has another length than `A`
has rows, are refused by the native constructor, and construct when the
lengths agree; an argument of a fixed-size 3-vector parameter (`p_BQ`,
`p_AQ_lower`, `p_AQ_upper`, and the others listed) given as an array of
another length than 3 does not convert, so that no constructor is called,
and likewise a weight matrix `C` that is not 3 by 3. -/
theorem C14_array_dimensions_checked_at_construction :
    (∀ (pi : ℚ) (T : Scalar) (p n m k l : Nat),
      PolyhedronConstraint_class.construct pi
        [.plant T p, .frame T, .frame T, .array [3, n], .array [m, k], .array [l],
         .context T p] [] =
        some (if l = m then .ok () else .error .array_dimension_mismatch)) ∧
    (∀ (pi : ℚ) (T : Scalar) (p m l u : Nat),
      ComInPolyhedronConstraint_class.construct pi
        [.plant T p, .none, .frame T, .array [m, 3], .array [l], .array [u],
         .context T p] [] =
        some (if l = m ∧ u = m then .ok () else .error .array_dimension_mismatch)) ∧
    vector3Parameters inverse_kinematics =
      ["a_A", "b_B", "p_B1P1", "p_B2P2", "p_AS", "n_A", "p_BT", "p_AQ_lower",
       "p_AQ_upper", "p_AP", "p_BQ"] ∧
    (∀ n : Nat, (CppType.EigenRef .Vector3d).convert (.array [n]) =
      if n = 3 then some (.array [3, 1]) else none) ∧
    (∀ r c : Nat, (CppType.EigenRef .Matrix3d).convert (.array [r, c]) =
      if r = 3 ∧ c = 3 then some (.array [3, 3]) else none) ∧
    (∀ c ∈ inverse_kinematics.constraintAndCostClasses, ∀ d ∈ c.ctors,
      ∀ (pi : ℚ) (pos : List PyValue) (kw : List (String × PyValue)) (vals : List PyValue)
        (i n : Nat), loadArgs evalDefault d.args pos kw = some vals →
        d.impl.paramTypes.get? i = some (.EigenRef .Vector3d) →
        vals.get? i = some (.array [n]) → n ≠ 3 →
        d.construct pi c.name pos kw = none) ∧
    (∀ (pi : ℚ) (T : Scalar) (p n : Nat), n ≠ 3 →
      PositionConstraint_class.construct pi
        [.plant T p, .frame T, .array [3], .array [3], .frame T, .array [n],
         .context T p] [] = none) := by
  refine ⟨?_, ?_, by decide, convert_Vector3d, convert_Matrix3d, ?_, ?_⟩
  · intro pi T p n m k l
    have hn : nativeConstruct pi "PolyhedronConstraint"
        [.plant T p, .frame T, .frame T, .array [3, n], .array [m, k], .array [l, 1],
         .context T p] =
        if l = m then .ok () else .error .array_dimension_mismatch := by
      simp [nativeConstruct, checkPlantContext, contextIndex, checkArguments]
    rw [← hn]
    cases T <;> rfl
  · intro pi T p m l u
    have hn : nativeConstruct pi "ComInPolyhedronConstraint"
        [.plant T p, .none, .frame T, .array [m, 3], .array [l, 1], .array [u, 1],
         .context T p] =
        if l = m ∧ u = m then .ok () else .error .array_dimension_mismatch := by
      simp [nativeConstruct, checkPlantContext, contextIndex, checkArguments]
    rw [← hn]
    cases T <;> rfl
  · intro c _ d _ pi pos kw vals i n hload ht hv hn
    have hconv : (CppType.EigenRef .Vector3d).convert (.array [n]) = none := by
      rw [convert_Vector3d, if_neg hn]
    have hargs := convertArgs_none_of_get d.impl.paramTypes vals i _ _ ht hv hconv
    unfold Def.construct Def.invokeTyped
    rw [hload, signature_of_paramTypes d.impl i _ ht]
    simp only [Option.bind, hargs, Option.map]
  · intro pi T p n hn
    rcases Nat.lt_or_gt_of_ne hn with h | h
    · interval_cases n <;> cases T <;> rfl
    · obtain ⟨k, rfl⟩ : ∃ k, n = k + 4 := ⟨n - 4, by omega⟩
      cases T <;> rfl

/-- C15 (spec-modelled): for every constructor of a constraint or cost class
that takes a plant and a `plant_context`, whatever the other arguments: a call
that passes a context created for another plant does not construct (it is
refused by the binding or fails in the native constructor with a context
mismatch, at construction), and a call that passes a context of that plant is
never refused for a context mismatch. -/
theorem C15_context_checked_against_plant (pi : ℚ) (c : PyClass)
    (hc : c ∈ inverse_kinematics.constraintAndCostClasses) (d : Def)
    (hd : d ∈ c.plantCtors) (pos : List PyValue) (kw : List (String × PyValue))
    (vals : List PyValue) (T T' : Scalar) (p p' : Nat)
    (hload : loadArgs evalDefault d.args pos kw = some vals)
    (hplant : vals.get? (d.argNames.indexOf "plant") = some (.plant T p))
    (hctx : vals.get? (d.argNames.indexOf "plant_context") = some (.context T' p')) :
    (p ≠ p' →
      d.construct pi c.name pos kw = none ∨
      d.construct pi c.name pos kw = some (.error .plant_context_mismatch)) ∧
    (p = p' → d.construct pi c.name pos kw ≠ some (.error .plant_context_mismatch)) := by
  have key : ∀ c ∈ inverse_kinematics.constraintAndCostClasses, ∀ d ∈ c.plantCtors,
      c.name ≠ "UnitQuaternionConstraint" ∧
      d.argNames.indexOf "plant" = 0 ∧
      d.argNames.indexOf "plant_context" = contextIndex c.name d.args.length ∧
      d.impl.signature = some d.impl.paramTypes ∧
      d.impl.paramTypes.length = d.args.length ∧
      d.impl.paramNames.length = d.args.length ∧
      d.impl.paramTypes.get? 0 = d.plantScalar.map CppType.MultibodyPlantPtr ∧
      d.impl.paramTypes.get? (d.argNames.indexOf "plant_context") =
        d.plantScalar.map CppType.ContextPtr ∧
      d.plantScalar ≠ none ∧
      d.impl.callee = some "Class" ∧
      d.impl.callArgs = d.impl.paramNames ∧
      d.impl.paramNames.Nodup := by decide
  obtain ⟨hname, hi0, hik, hsig, hlenT, hlenN, ht0, htk, hsc, hcallee, hargs, hnd⟩ :=
    key c hc d hd
  rw [hi0] at hplant
  unfold Def.construct Def.invokeTyped
  rw [hload, hsig]
  simp only [Option.bind]
  cases hconv : convertArgs d.impl.paramTypes vals with
  | none =>
    exact ⟨fun _ => Or.inl rfl, fun _ h => by simp [Option.map] at h⟩
  | some cs =>
    obtain ⟨hlen, hget⟩ := convertArgs_get _ _ _ hconv
    have hfwd := forward_wrapper d.impl cs "Class" hcallee hargs hnd (by rw [hlen, hlenT, hlenN])
    simp only [hfwd, Option.map]
    cases hTd : d.plantScalar with
    | none => exact absurd hTd hsc
    | some Td =>
      rw [hTd] at ht0 htk
      simp only [Option.map] at ht0 htk
      have h0 := hget 0 _ _ ht0 hplant
      have hk := hget _ _ _ htk hctx
      have hpos0 : 0 < cs.length := by
        rw [hlen]
        exact (List.get?_eq_some.mp ht0).1
      have hposk : d.argNames.indexOf "plant_context" < cs.length := by
        rw [hlen]
        exact (List.get?_eq_some.mp htk).1
      obtain ⟨c0, hc0⟩ : ∃ c0, cs.get? 0 = some c0 := ⟨_, List.get?_eq_get hpos0⟩
      obtain ⟨ck, hck⟩ : ∃ ck, cs.get? (d.argNames.indexOf "plant_context") = some ck :=
        ⟨_, List.get?_eq_get hposk⟩
      rw [hc0] at h0
      rw [hck] at hk
      obtain ⟨hT, rfl⟩ := convert_plant Td T p c0 h0
      obtain ⟨hT', rfl⟩ := convert_context Td T' p' ck hk
      have hcs : contextIndex c.name cs.length = d.argNames.indexOf "plant_context" := by
        rw [hlen, hlenT, hik]
      have hiff := nativeConstruct_mismatch_iff pi c.name cs T T' p p' hname hc0
        (by rw [hcs]; exact hck)
      refine ⟨?_, ?_⟩
      · intro hne
        right
        exact congrArg some (hiff.mpr fun h => hne h.2)
      · intro heq hres
        simp only [Option.some.injEq] at hres
        exact (hiff.mp hres) ⟨hT ▸ hT' ▸ rfl, heq⟩

/-- Witness for C15: the `double` constructor of `OrientationCost`, called
with the context of plant 2 for plant 1, fails with a context mismatch, and
called with a context of plant 1 constructs. -/
theorem C15_context_checked_against_plant_witness :
    OrientationCost_class ∈ inverse_kinematics.constraintAndCostClasses ∧
    (OrientationCost_class.defs.get ⟨0, by decide⟩) ∈ OrientationCost_class.plantCtors ∧
    (OrientationCost_class.defs.get ⟨0, by decide⟩).construct 3 "OrientationCost"
      [.plant .double 1, .frame .double, .other "R", .frame .double, .other "R", .float 1,
       .context .double 2] [] = some (.error .plant_context_mismatch) ∧
    (OrientationCost_class.defs.get ⟨0, by decide⟩).construct 3 "OrientationCost"
      [.plant .double 1, .frame .double, .other "R", .frame .double, .other "R", .float 1,
       .context .double 1] [] = some (.ok ()) ∧
    ((1 : Nat) ≠ 2 →
      (OrientationCost_class.defs.get ⟨0, by decide⟩).construct 3 OrientationCost_class.name
        [.plant .double 1, .frame .double, .other "R", .frame .double, .other "R", .float 1,
         .context .double 2] [] = none ∨
      (OrientationCost_class.defs.get ⟨0, by decide⟩).construct 3 OrientationCost_class.name
        [.plant .double 1, .frame .double, .other "R", .frame .double, .other "R", .float 1,
         .context .double 2] [] = some (.error .plant_context_mismatch)) :=
  ⟨by decide, by decide, by rfl, by rfl,
    (C15_context_checked_against_plant 3 OrientationCost_class (by decide)
      (OrientationCost_class.defs.get ⟨0, by decide⟩) (by decide)
      [.plant .double 1, .frame .double, .other "R", .frame .double, .other "R", .float 1,
       .context .double 2] []
      [.plant .double 1, .frame .double, .other "R", .frame .double, .other "R", .float 1,
       .context .double 2] .double .double 1 2 (by rfl) (by rfl) (by rfl)).1⟩

/-- C17: `InverseKinematics` binds the accessors `q`, `prog`,
`get_mutable_prog`, `context` and `get_mutable_context`; the entries of the
module bound with `reference_internal` are exactly `prog`, `get_mutable_prog`,
`context`, `get_mutable_context` of `InverseKinematics` and `prog`,
`get_mutable_prog` of `GlobalInverseKinematics`, and for each of them the
returned object keeps `self` alive (`keep_alive<0, 1>`); `q`,
`body_rotation_matrix` and `body_position` declare no policy and no
keep-alive. -/
theorem C17_reference_internal_accessors :
    InverseKinematics_class.accessors.map (·.name) =
      ["q", "prog", "get_mutable_prog", "context", "get_mutable_context"] ∧
    GlobalInverseKinematics_class.accessors.map (·.name) = ["prog", "get_mutable_prog"] ∧
    entriesWithPolicy inverse_kinematics =
      [("InverseKinematics", "prog", .reference_internal),
       ("InverseKinematics", "get_mutable_prog", .reference_internal),
       ("InverseKinematics", "context", .reference_internal),
       ("InverseKinematics", "get_mutable_context", .reference_internal),
       ("GlobalInverseKinematics", "prog", .reference_internal),
       ("GlobalInverseKinematics", "get_mutable_prog", .reference_internal)] ∧
    (∀ c ∈ inverse_kinematics.classes, ∀ d ∈ c.defs, d.rvp = some .reference_internal →
      (⟨0, 1⟩ : KeepAlive) ∈ Rvp.keep_alive d.rvp) ∧
    (InverseKinematics_class.overloads "q").map
        (fun d => (d.impl, d.rvp, Rvp.keep_alive d.rvp, d.keep_alive)) =
      [(.member "q", none, [], [])] ∧
    (GlobalInverseKinematics_class.overloads "body_rotation_matrix").map
        (fun d => (d.impl, d.rvp, Rvp.keep_alive d.rvp, d.keep_alive)) =
      [(.member "body_rotation_matrix", none, [], [])] ∧
    (GlobalInverseKinematics_class.overloads "body_position").map
        (fun d => (d.impl, d.rvp, Rvp.keep_alive d.rvp, d.keep_alive)) =
      [(.member "body_position", none, [], [])] := by
  refine ⟨by decide, by decide, by decide, by decide, by decide, by decide, by decide⟩

/-- C18: the lambda wrappers of the module are the two
`InverseKinematics.AddPositionConstraint` overloads, the four
`GlobalInverseKinematics` methods `AddWorldPositionConstraint`,
`AddWorldRelativePositionConstraint`, `AddWorldOrientationConstraint` and
`AddPostureCost`, and the 27 constructor lambdas of the constraint and cost
classes. The body of each is one call, of the native operation of the same
name or of the constructor of the class, whose argument list is the lambda's
own parameter list (self excluded), each name once and in order; so the call
receives the loaded values unchanged and in order. -/
theorem C18_lambda_wrappers_forward_verbatim :
    lambdaWrapperNames inverse_kinematics =
      [("InverseKinematics", ["AddPositionConstraint", "AddPositionConstraint"]),
       ("AngleBetweenVectorsConstraint", ["__init__", "__init__"]),
       ("PointToPointDistanceConstraint", ["__init__", "__init__"]),
       ("PolyhedronConstraint", ["__init__", "__init__"]),
       ("DistanceConstraint", ["__init__", "__init__"]),
       ("GazeTargetConstraint", ["__init__", "__init__"]),
       ("MinimumDistanceConstraint", ["__init__", "__init__"]),
       ("PositionConstraint", ["__init__", "__init__", "__init__", "__init__"]),
       ("PositionCost", ["__init__", "__init__"]),
       ("ComPositionConstraint", ["__init__", "__init__"]),
       ("ComInPolyhedronConstraint", ["__init__", "__init__"]),
       ("OrientationConstraint", ["__init__", "__init__"]),
       ("OrientationCost", ["__init__", "__init__"]),
       ("UnitQuaternionConstraint", ["__init__"]),
       ("GlobalInverseKinematics",
        ["AddWorldPositionConstraint", "AddWorldRelativePositionConstraint",
         "AddWorldOrientationConstraint", "AddPostureCost"])] ∧
    (lambdaWrappers inverse_kinematics).length = 33 ∧
    (∀ e ∈ lambdaWrappers inverse_kinematics,
      e.2.impl.callee = some (if e.2.isCtor then "Class" else e.2.name) ∧
      e.2.impl.callArgs = e.2.impl.paramNames ∧
      e.2.impl.paramNames.Nodup ∧
      ∀ (V : Type) (vals : List V), vals.length = e.2.impl.paramNames.length →
        e.2.impl.forward vals =
          some ⟨if e.2.isCtor then "Class" else e.2.name, vals⟩) := by
  refine ⟨by decide, by decide, ?_⟩
  intro e he
  have key : ∀ e ∈ lambdaWrappers inverse_kinematics,
      e.2.impl.callee = some (if e.2.isCtor then "Class" else e.2.name) ∧
      e.2.impl.callArgs = e.2.impl.paramNames ∧
      e.2.impl.paramNames.Nodup := by decide
  obtain ⟨h1, h2, h3⟩ := key e he
  exact ⟨h1, h2, h3, fun V vals hl => forward_wrapper e.2.impl vals _ h1 h2 h3 hl⟩

/-- C19: in every entry of the module bound to a lambda, the `py::arg` names
are the lambda's parameter names (self excluded), name for name and position
by position, hence of the same length; and a call of a lambda wrapper that
gives every argument by keyword passes the value given under a name to the
operation in the position of the parameter of that name. -/
theorem C19_keyword_names_match_parameters :
    (∀ c ∈ inverse_kinematics.classes, ∀ d ∈ c.defs, d.impl.isLambda = true →
      d.argNames = d.impl.paramNames ∧ d.args.length = d.impl.paramNames.length) ∧
    ((inverse_kinematics.classes.map fun c =>
      (c.defs.filter fun d => d.impl.isLambda).length).sum = 34) ∧
    (∀ e ∈ lambdaWrappers inverse_kinematics,
      ∀ (V : Type) (ev : DefaultExpr → V) (vals : List V),
        vals.length = e.2.args.length →
        e.2.invoke ev [] (e.2.argNames.zip vals) =
          some ⟨if e.2.isCtor then "Class" else e.2.name, vals⟩) := by
  refine ⟨by decide, by decide, ?_⟩
  intro e he V ev vals hl
  have key : ∀ e ∈ lambdaWrappers inverse_kinematics,
      e.2.impl.callee = some (if e.2.isCtor then "Class" else e.2.name) ∧
      e.2.impl.callArgs = e.2.impl.paramNames ∧
      e.2.impl.paramNames.Nodup ∧
      e.2.argNames = e.2.impl.paramNames ∧
      e.2.argNames.Nodup := by decide
  obtain ⟨h1, h2, h3, h4, h5⟩ := key e he
  have hlen : vals.length = e.2.impl.paramNames.length := by
    rw [hl, ← h4]
    simp [Def.argNames]
  unfold Def.invoke
  have hload := loadArgs_keywords ev e.2.args vals h5 hl
  unfold Def.argNames
  rw [hload]
  exact forward_wrapper e.2.impl vals _ h1 h2 h3 hlen

/-- C20: comparing, for each `InverseKinematics.AddX` method, its keyword
names with those of a constructor shape of class `X` without `plant` and
`plant_context`: the sets are equal for both `AddPositionConstraint`
overloads (in another order than the constructor's, `frameB` and `p_BQ`
first), `AddPositionCost`, `AddOrientationConstraint`, `AddOrientationCost`,
`AddGazeTargetConstraint`, `AddDistanceConstraint`,
`AddPointToPointDistanceConstraint` and `AddPolyhedronConstraint`, and differ
for exactly two methods: `AddAngleBetweenVectorsConstraint` (`na_A`, `nb_B`
against `a_A`, `b_B`) and `AddMinimumDistanceConstraint` (`threshold_distance`
against `penalty_function`, `influence_distance_offset`). -/
theorem C20_add_method_keywords :
    addMethodAgreement inverse_kinematics =
      [("AddPositionConstraint", ["frameB", "p_BQ", "frameA", "p_AQ_lower", "p_AQ_upper"],
        true),
       ("AddPositionConstraint",
        ["frameB", "p_BQ", "frameAbar", "X_AbarA", "p_AQ_lower", "p_AQ_upper"], true),
       ("AddPositionCost", ["frameA", "p_AP", "frameB", "p_BQ", "C"], true),
       ("AddOrientationConstraint",
        ["frameAbar", "R_AbarA", "frameBbar", "R_BbarB", "theta_bound"], true),
       ("AddOrientationCost", ["frameAbar", "R_AbarA", "frameBbar", "R_BbarB", "c"], true),
       ("AddGazeTargetConstraint",
        ["frameA", "p_AS", "n_A", "frameB", "p_BT", "cone_half_angle"], true),
       ("AddAngleBetweenVectorsConstraint",
        ["frameA", "na_A", "frameB", "nb_B", "angle_lower", "angle_upper"], false),
       ("AddMinimumDistanceConstraint", ["minimum_distance", "threshold_distance"], false),
       ("AddDistanceConstraint", ["geometry_pair", "distance_lower", "distance_upper"], true),
       ("AddPointToPointDistanceConstraint",
        ["frame1", "p_B1P1", "frame2", "p_B2P2", "distance_lower", "distance_upper"], true),
       ("AddPolyhedronConstraint", ["frameF", "frameG", "p_GP", "A", "b"], true)] ∧
    addMethodDifferences inverse_kinematics =
      [("AddAngleBetweenVectorsConstraint", ["na_A", "nb_B"], ["a_A", "b_B"]),
       ("AddMinimumDistanceConstraint", ["threshold_distance"],
        ["penalty_function", "influence_distance_offset"])] ∧
    addMethodOrder inverse_kinematics =
      [("AddPositionConstraint", false), ("AddPositionConstraint", false),
       ("AddPositionCost", true), ("AddOrientationConstraint", true),
       ("AddOrientationCost", true), ("AddGazeTargetConstraint", true),
       ("AddDistanceConstraint", true), ("AddPointToPointDistanceConstraint", true),
       ("AddPolyhedronConstraint", true)] ∧
    (addMethods inverse_kinematics).map (·.1) =
      InverseKinematics_class.methods.filter (fun d => !d.args.isEmpty) ∧
    (addMethods inverse_kinematics).length = 11 ∧
    (AngleBetweenVectorsConstraint_class.shapes =
      [["plant", "frameA", "a_A", "frameB", "b_B", "angle_lower", "angle_upper",
        "plant_context"]]) ∧
    (MinimumDistanceConstraint_class.shapes =
      [["plant", "minimum_distance", "plant_context", "penalty_function",
        "influence_distance_offset"]]) := by
  refine ⟨by decide, by decide, by decide, by decide, by decide, by decide, by decide⟩

/-! ## The claims, concluded -/

/-- C21: both scalar overloads of the `MinimumDistanceConstraint` constructor
declare `plant`, `minimum_distance` and `plant_context` without a default,
`penalty_function` with the default `MinimumDistancePenaltyFunction` with
empty braces and `influence_distance_offset` with the default `1`;
`InverseKinematics.AddMinimumDistanceConstraint` declares `minimum_distance`
without a default and `threshold_distance` with the default `1.0`; the
`GlobalInverseKinematics` constructor declares `options` with the default
`GlobalInverseKinematics::Options()`; and these, `with_joint_limits` of the two
`InverseKinematics` constructors and `X_WF` of the two `GlobalInverseKinematics`
methods are all the arguments of the module that have a default. A call that
omits the defaulted arguments passes their defaults on, and every accepted
call supplies the arguments without a default. -/
theorem C21_arguments_with_default :
    MinimumDistanceConstraint_class.ctors.map (fun d => (d.plantScalar, d.args)) =
      [(some .double,
        [arg "plant", arg "minimum_distance", arg "plant_context",
         arg_eq "penalty_function" .MinimumDistancePenaltyFunction_empty,
         arg_eq "influence_distance_offset" .int_1]),
       (some .AutoDiffXd,
        [arg "plant", arg "minimum_distance", arg "plant_context",
         arg_eq "penalty_function" .MinimumDistancePenaltyFunction_empty,
         arg_eq "influence_distance_offset" .int_1])] ∧
    (InverseKinematics_class.overloads "AddMinimumDistanceConstraint").map (·.args) =
      [[arg "minimum_distance", arg_eq "threshold_distance" .float_1_0]] ∧
    GlobalInverseKinematics_class.ctors.map (·.args) =
      [[arg "plant", arg_eq "options" .Options_default]] ∧
    argumentsWithDefault inverse_kinematics =
      [("InverseKinematics", "__init__", "with_joint_limits", .true_),
       ("InverseKinematics", "__init__", "with_joint_limits", .true_),
       ("InverseKinematics", "AddMinimumDistanceConstraint", "threshold_distance",
        .float_1_0),
       ("MinimumDistanceConstraint", "__init__", "penalty_function",
        .MinimumDistancePenaltyFunction_empty),
       ("MinimumDistanceConstraint", "__init__", "influence_distance_offset", .int_1),
       ("MinimumDistanceConstraint", "__init__", "penalty_function",
        .MinimumDistancePenaltyFunction_empty),
       ("MinimumDistanceConstraint", "__init__", "influence_distance_offset", .int_1),
       ("GlobalInverseKinematics", "__init__", "options", .Options_default),
       ("GlobalInverseKinematics", "AddWorldPositionConstraint", "X_WF",
        .RigidTransformd_default),
       ("GlobalInverseKinematics", "AddWorldRelativePositionConstraint", "X_WF",
        .RigidTransformd_default)] ∧
    argumentCount inverse_kinematics = 269 ∧
    (∀ (V : Type) (ev : DefaultExpr → V) (plant minimum_distance plant_context : V),
      MinimumDistanceConstraint_class.call ev "__init__"
        [plant, minimum_distance, plant_context] [] =
        [⟨"Class", [plant, minimum_distance, plant_context,
            ev .MinimumDistancePenaltyFunction_empty, ev .int_1]⟩,
         ⟨"Class", [plant, minimum_distance, plant_context,
            ev .MinimumDistancePenaltyFunction_empty, ev .int_1]⟩]) ∧
    (∀ (V : Type) (ev : DefaultExpr → V) (minimum_distance : V),
      InverseKinematics_class.call ev "AddMinimumDistanceConstraint" [minimum_distance] [] =
        [⟨"AddMinimumDistanceConstraint", [minimum_distance, ev .float_1_0]⟩]) ∧
    (∀ (V : Type) (ev : DefaultExpr → V) (plant : V),
      GlobalInverseKinematics_class.call ev "__init__" [plant] [] =
        [⟨"Class", [plant, ev .Options_default]⟩]) ∧
    (∀ c ∈ inverse_kinematics.classes, ∀ d ∈ c.defs, ∀ a ∈ d.args, a.default = none →
      ∀ (V : Type) (ev : DefaultExpr → V) (pos : List V) (kw : List (String × V))
        (call : NativeCall V), d.invoke ev pos kw = some call →
        d.argNames.indexOf a.name < pos.length ∨ a.name ∈ kw.map Prod.fst) := by
  refine ⟨by decide, by decide, by decide, by decide, by decide, ?_, ?_, ?_, ?_⟩
  · intro V ev plant minimum_distance plant_context
    rfl
  · intro V ev minimum_distance
    rfl
  · intro V ev plant
    rfl
  · intro c hc d hd a ha hdef V ev pos kw call h
    have key : ∀ c ∈ inverse_kinematics.classes, ∀ d ∈ c.defs, ∀ a ∈ d.args,
        a.default = none → ∀ b ∈ d.args, b.name = a.name → b.default = none := by decide
    exact invoke_supplies ev d a.name (List.mem_map.mpr ⟨a, ha, rfl⟩)
      (key c hc d hd a ha hdef) pos kw call h

set_option maxRecDepth 100000 in
/-- C22: the `__repr__` of an `Options` value is the text
`GlobalInverseKinematics.Options(num_intervals_per_half_axis=A, approach=B,
interval_binning=C, linear_constraint_only=D)` where `A`, `B`, `C`, `D` are
the renderings of the four fields, in that order; the lambda names each of
the four read-write fields exactly once; and two values whose fields render
identically have the same `__repr__`. -/
theorem C22_Options_repr :
    (Options_class.overloads "__repr__").map (·.impl) =
      [.repr_format
        ("GlobalInverseKinematics.Options(num_intervals_per_half_axis=\x7b\x7d, " ++
          "approach=\x7b\x7d, interval_binning=\x7b\x7d, linear_constraint_only=\x7b\x7d)")
        ["num_intervals_per_half_axis", "approach", "interval_binning",
         "linear_constraint_only"]] ∧
    (Options_class.readwrite.map (·.name) =
        ["num_intervals_per_half_axis", "approach", "interval_binning",
         "linear_constraint_only"] ∧
      Options_class.readwrite.map (·.member) =
        ["num_intervals_per_half_axis", "approach", "interval_binning",
         "linear_constraint_only"] ∧
      (Options_class.readwrite.map (·.member)).Nodup) ∧
    (∀ (A B : Type) (strA : A → String) (strB : B → String) (o : Options A B),
      pyRepr Options_class strA strB o =
        some ("GlobalInverseKinematics.Options(num_intervals_per_half_axis=" ++
          (MemberValue.int o.num_intervals_per_half_axis).render strA strB ++
          ", approach=" ++ (MemberValue.approach o.approach).render strA strB ++
          ", interval_binning=" ++
          (MemberValue.interval_binning o.interval_binning).render strA strB ++
          ", linear_constraint_only=" ++
          (MemberValue.bool o.linear_constraint_only).render strA strB ++ ")")) ∧
    (∀ (A B : Type) (strA : A → String) (strB : B → String) (o o' : Options A B),
      (∀ m : OptionsMember, (o.read m).render strA strB = (o'.read m).render strA strB) →
      pyRepr Options_class strA strB o = pyRepr Options_class strA strB o') := by
  have hrepr : ∀ (A B : Type) (strA : A → String) (strB : B → String) (o : Options A B),
      pyRepr Options_class strA strB o =
        some ("GlobalInverseKinematics.Options(num_intervals_per_half_axis=" ++
          (MemberValue.int o.num_intervals_per_half_axis).render strA strB ++
          ", approach=" ++ (MemberValue.approach o.approach).render strA strB ++
          ", interval_binning=" ++
          (MemberValue.interval_binning o.interval_binning).render strA strB ++
          ", linear_constraint_only=" ++
          (MemberValue.bool o.linear_constraint_only).render strA strB ++ ")") := by
    intro A B strA strB o
    have h : pyRepr Options_class strA strB o =
        some ("GlobalInverseKinematics.Options(num_intervals_per_half_axis=" ++
          ((MemberValue.int o.num_intervals_per_half_axis).render strA strB ++
          (", approach=" ++ ((MemberValue.approach o.approach).render strA strB ++
          (", interval_binning=" ++
          ((MemberValue.interval_binning o.interval_binning).render strA strB ++
          (", linear_constraint_only=" ++
          ((MemberValue.bool o.linear_constraint_only).render strA strB ++ ")")))))))) := rfl
    rw [h]
    simp only [String.append_assoc]
  refine ⟨by decide, by decide, hrepr, ?_⟩
  intro A B strA strB o o' h
  rw [hrepr, hrepr]
  have h1 := h .num_intervals_per_half_axis
  have h2 := h .approach
  have h3 := h .interval_binning
  have h4 := h .linear_constraint_only
  simp only [Options.read] at h1 h2 h3 h4
  rw [h1, h2, h3, h4]

end Pydrake
